import Mathlib

/-!
# aiocometd-mock: shallow embedding of the request-processing pipeline

This file embeds the CometD mock server's request pipeline
(`aiocometd_mock/routes.py`, `aiocometd_mock/validators/`,
`aiocometd_mock/adapters/`) and the decorator-based variant
(`aiocometd_mock/validators.py` as wired in `main.py`), and proves
properties of the session-lifecycle state machine.

Conventions of the embedding:
* JSON values are modelled by `JValue`; numbers are `Int` (the server only
  ever handles integers in the relevant fields).
* Python dictionaries are association lists with unique keys; `d[k] = v`
  updates in place or appends, `del d[k]` removes the key.
* A request's parsed body is `Option JValue` (`none` = JSON parse failure).
* `time.time()` is an `Int` argument `now` threaded through each request.
* `uuid.uuid4()` is modelled by an injective generator `genUuid` driven by
  a per-application counter (`AppState.uuid_counter`); this captures
  "freshly generated globally-unique identifier".
* Python faults (IndexError / KeyError / TypeError / AttributeError) are
  modelled by `Except String`; a fault escaping the dispatcher's
  `try`-block surfaces as `Outcome.crash`.
* The adapter chain is `[force_reconnect, expire_client_id]`: `cli.py`
  loads `reconnect` (when a reconnection threshold is set) before `expire`
  (when an expiry threshold is set), and each adapter self-disables when
  its own thresholds are `None`, so running both unconditionally is
  behaviorally identical.  The `chaos` adapter is never loaded by
  `cli.py` and is out of scope.
-/

inductive JValue where
  | null
  | bool (b : Bool)
  | num (n : Int)
  | str (s : String)
  | arr (xs : List JValue)
  | obj (fields : List (String × JValue))

abbrev JFields := List (String × JValue)

/-- Python `dict.get(k)`: first binding of `k`, if any. -/
def jget : JFields → String → Option JValue
  | [], _ => none
  | (k', v) :: rest, k => if k' = k then some v else jget rest k

/-- Render an optional JSON value into a JSON body: a missing Python value
(`None`) serialises as JSON `null`. -/
def optToJ (v : Option JValue) : JValue := v.getD JValue.null

/-- Python truthiness of `message.get(k)` results. -/
def truthy : Option JValue → Bool
  | none => false
  | some JValue.null => false
  | some (JValue.bool b) => b
  | some (JValue.num n) => n != 0
  | some (JValue.str s) => s != ""
  | some (JValue.arr xs) => !xs.isEmpty
  | some (JValue.obj fs) => !fs.isEmpty

/-- Python `str(x)` for the values that can reach the f-strings of the
pipeline.  Non-empty lists/dicts never reach them (a hashability
`TypeError` fires first), so only `[]`/`{}` need exact renderings. -/
def pyStr : Option JValue → String
  | none => "None"
  | some JValue.null => "None"
  | some (JValue.bool true) => "True"
  | some (JValue.bool false) => "False"
  | some (JValue.num n) => toString n
  | some (JValue.str s) => s
  | some (JValue.arr _) => "[]"
  | some (JValue.obj _) => "{}"

/-- `payload[0]` under Python subscripting semantics. -/
def pyIndex0 : JValue → Except String JValue
  | JValue.arr (x :: _) => Except.ok x
  | JValue.arr [] => Except.error "IndexError"
  | JValue.obj _ => Except.error "KeyError"
  | JValue.str s =>
      match s.data with
      | c :: _ => Except.ok (JValue.str (String.mk [c]))
      | [] => Except.error "IndexError"
  | _ => Except.error "TypeError: not subscriptable"

/-- `m.get(k)`: `AttributeError` when `m` is not a dict. -/
def pyGet : JValue → String → Except String (Option JValue)
  | JValue.obj fs, k => Except.ok (jget fs k)
  | _, _ => Except.error "AttributeError"

/-- `m.get(k)` on a value already known to be a dict (the callers use it
only after an earlier `.get` on `m` succeeded). -/
def objGet : JValue → String → Option JValue
  | JValue.obj fs, k => jget fs k
  | _, _ => none

/-- `m[k]` on dicts (`KeyError` when missing, `TypeError` otherwise). -/
def pyGetItem : JValue → String → Except String JValue
  | JValue.obj fs, k =>
      match jget fs k with
      | some v => Except.ok v
      | none => Except.error "KeyError"
  | _, _ => Except.error "TypeError"

/-- Substring test used by Python's `in` on strings. -/
def strContains (s pat : String) : Bool := (s.splitOn pat).length != 1

/-- `x == k` under Python equality, for a string literal `k`. -/
def listContainsStr : List JValue → String → Bool
  | [], _ => false
  | JValue.str s :: rest, k => s = k || listContainsStr rest k
  | _ :: rest, k => listContainsStr rest k

/-- Python `k in container` for a string literal `k`. -/
def pyContains : JValue → String → Except String Bool
  | JValue.obj fs, k => Except.ok (jget fs k).isSome
  | JValue.str s, k => Except.ok (strContains s k)
  | JValue.arr xs, k => Except.ok (listContainsStr xs k)
  | _, _ => Except.error "TypeError: argument not iterable"

/-- Python `channel == name` (equality against a string literal; non-string
values compare unequal). -/
def channelIs (c : Option JValue) (name : String) : Bool :=
  match c with
  | some (JValue.str s) => s = name
  | _ => false

/-- `channel.startswith("/")`, specialised (only ever called with `"/"`). -/
def startsWithSlash (s : String) : Bool :=
  match s.data with
  | '/' :: _ => true
  | _ => false

/-! ## Session store (`request.app["client_ids"]`) -/

structure Session where
  connection_count : Int
  creation_time : Int
deriving Repr, DecidableEq

abbrev Store := List (String × Session)

def storeLookup : Store → String → Option Session
  | [], _ => none
  | (k', v) :: rest, k => if k' = k then some v else storeLookup rest k

/-- `d[k] = v`: update in place, or append a new binding. -/
def storeSet : Store → String → Session → Store
  | [], k, v => [(k, v)]
  | (k', v') :: rest, k, v =>
      if k' = k then (k', v) :: rest else (k', v') :: storeSet rest k v

/-- `del d[k]` (dict keys are unique, so removing every binding of `k`
coincides with Python's behavior on every reachable store). -/
def storeErase : Store → String → Store
  | [], _ => []
  | (k', v) :: rest, k =>
      if k' = k then storeErase rest k else (k', v) :: storeErase rest k

/-- `k in d` for an arbitrary candidate value: unhashable values
(`list`/`dict`) raise `TypeError`; non-string hashable values are never
keys of the store. -/
def pyInDict : Option JValue → Store → Except String Bool
  | some (JValue.arr _), _ => Except.error "TypeError: unhashable type"
  | some (JValue.obj _), _ => Except.error "TypeError: unhashable type"
  | some (JValue.str s), st => Except.ok (storeLookup st s).isSome
  | _, _ => Except.ok false

/-! ## Application configuration and state -/

structure Config where
  no_validation : Bool
  connect_interval : Int
  connect_timeout : Int
  reconnection_interval : Option Int
  reconnection_interval_seconds : Option Int
  expire_client_ids_after : Option Int
  expire_client_ids_after_seconds : Option Int
deriving Repr, DecidableEq

structure AppState where
  client_ids : Store
  uuid_counter : Nat
deriving Repr, DecidableEq

/-- `create_app` starts from an empty session store. -/
def freshApp : AppState := ⟨[], 0⟩

/-- Model of `uuid.uuid4()`: the `n`-th identifier issued by the process.
Injective by construction (distinct lengths), which captures global
uniqueness of the generated client identifiers. -/
def genUuid (n : Nat) : String := String.mk (List.replicate (n + 1) 'u')

structure Response where
  status : Nat
  body : JValue

inductive Outcome where
  | ok (r : Response)
  | crash (e : String)

/-! ## Validator chain (`validators/request.py`, `validators/client_id.py`)

`cli.py` loads validators in the order `["request", "client_id"]`, so
`run_validators` runs `validate_request` first and `validate_client_id`
second, stopping at the first validator returning a response. -/

/-- `error_message.lower().replace(" ", "_").replace("'", "")`. -/
def errorTag (s : String) : String :=
  String.mk (((s.data.filter (fun c => c ≠ '\'')).map Char.toLower).map
    (fun c => if c = ' ' then '_' else c))

/-- `_create_error_response` from `validators/request.py`: builds the 400
envelope, attaching `channel`/`id` only when truthy. -/
def createErrorResponse (errorMessage : String)
    (channel : Option JValue) (messageId : Option JValue) : Response :=
  let base : JFields :=
    [("successful", JValue.bool false),
     ("error", JValue.str ("400::bad_request," ++ errorTag errorMessage)),
     ("advice", JValue.obj [("reconnect", JValue.str "none")])]
  let withChan := if truthy channel then base ++ [("channel", optToJ channel)] else base
  let withId := if truthy messageId then withChan ++ [("id", optToJ messageId)] else withChan
  ⟨400, JValue.arr [JValue.obj withId]⟩

/-- `all(isinstance(s, str) for s in subscription)`. -/
def allStrings : List JValue → Bool
  | [] => true
  | JValue.str _ :: rest => allStrings rest
  | _ => false

/-- `isinstance(v, str)` on a `.get` result. -/
def isStrOpt : Option JValue → Bool
  | some (JValue.str _) => true
  | _ => false

/-- `subscription` is a string or a list of strings. -/
def validSubscription : Option JValue → Bool
  | some (JValue.str _) => true
  | some (JValue.arr xs) => allStrings xs
  | _ => false

/-- The per-message loop body of `validate_request`. -/
def validateMessages : List JValue → Option Response
  | [] => none
  | m :: rest =>
    match m with
    | JValue.obj fs =>
      let channel := jget fs "channel"
      let messageId := jget fs "id"
      match channel with
      | some (JValue.str c) =>
        if ¬ startsWithSlash c then
          some (createErrorResponse
            "Message must have a 'channel' field starting with '/'" channel messageId)
        else if c ≠ "/meta/handshake" ∧ ¬ isStrOpt (jget fs "clientId") then
          some (createErrorResponse
            "Message requires a string 'clientId' field" channel messageId)
        else if (c = "/meta/subscribe" ∨ c = "/meta/unsubscribe") ∧
            ¬ validSubscription (jget fs "subscription") then
          some (createErrorResponse
            "Message requires a 'subscription' field (string or array of strings)"
            channel messageId)
        else if c = "/meta/connect" ∧ ¬ isStrOpt (jget fs "connectionType") then
          some (createErrorResponse
            "Message requires a string 'connectionType' field" channel messageId)
        else validateMessages rest
      | _ =>
        some (createErrorResponse
          "Message must have a 'channel' field starting with '/'" channel messageId)
    | _ => some (createErrorResponse "Payload must contain only JSON objects" none none)

/-- `validate_request` from `validators/request.py`. -/
def validateRequest (cfg : Config) (payload : JValue) : Option Response :=
  if cfg.no_validation then none
  else
    match payload with
    | JValue.arr [] => some (createErrorResponse "Payload must be a non-empty list" none none)
    | JValue.arr msgs => validateMessages msgs
    | _ => some (createErrorResponse "Payload must be a non-empty list" none none)

/-- The unknown-clientId error envelope of `validate_client_id`
(`json_response(..., status=400)`; the `id`/`channel` fields keep their
raw values, serialising missing ones as `null`). -/
def unknownClientIdResponse (messageId channel clientId : Option JValue) : Response :=
  ⟨400, JValue.arr [JValue.obj
    [("id", optToJ messageId),
     ("channel", optToJ channel),
     ("successful", JValue.bool false),
     ("error", JValue.str ("401::" ++ pyStr clientId ++ "::unknown_client_id")),
     ("advice", JValue.obj [("reconnect", JValue.str "handshake")])]]⟩

/-- `validate_client_id` from `validators/client_id.py`.  On a known
clientId of a non-handshake message it increments the session's
`connection_count` in place; the crash points (`payload[0]`, `.get`,
hashability of the `in` test) all precede any mutation. -/
def validateClientId (st : Store) (payload : JValue) :
    Except String (Option Response × Store) :=
  match pyIndex0 payload with
  | Except.error e => Except.error e
  | Except.ok msg =>
    match pyGet msg "clientId" with
    | Except.error e => Except.error e
    | Except.ok clientId =>
      match pyGet msg "channel" with
      | Except.error e => Except.error e
      | Except.ok channel =>
        if channelIs channel "/meta/handshake" then Except.ok (none, st)
        else if ¬ truthy clientId then
          Except.ok (some (unknownClientIdResponse (objGet msg "id") channel clientId), st)
        else
          match pyInDict clientId st with
          | Except.error e => Except.error e
          | Except.ok false =>
            Except.ok (some (unknownClientIdResponse (objGet msg "id") channel clientId), st)
          | Except.ok true =>
            match clientId with
            | some (JValue.str s) =>
              match storeLookup st s with
              | some info =>
                Except.ok (none, storeSet st s
                  ⟨info.connection_count + 1, info.creation_time⟩)
              | none => Except.ok (none, st)
            | _ => Except.ok (none, st)

/-- `run_validators` from `validators/__init__.py` with the loaded chain
`[validate_request, validate_client_id]`. -/
def runValidators (cfg : Config) (st : Store) (payload : JValue) :
    Except String (Option Response × Store) :=
  if cfg.no_validation then Except.ok (none, st)
  else
    match validateRequest cfg payload with
    | some r => Except.ok (some r, st)
    | none => validateClientId st payload

/-! ## Adapter chain (`adapters/reconnect.py`, `adapters/expire.py`) -/

/-- `connection_count > reconnection_interval or
now - creation_time > reconnection_interval_seconds` (each side disabled
when its threshold is `None`). -/
def reconnectCond (cfg : Config) (info : Session) (now : Int) : Bool :=
  (match cfg.reconnection_interval with
   | some r => info.connection_count > r
   | none => false) ||
  (match cfg.reconnection_interval_seconds with
   | some s => now - info.creation_time > s
   | none => false)

/-- `connection_count >= expire_after or
now - creation_time >= expire_after_seconds`. -/
def expireCond (cfg : Config) (info : Session) (now : Int) : Bool :=
  (match cfg.expire_client_ids_after with
   | some r => info.connection_count ≥ r
   | none => false) ||
  (match cfg.expire_client_ids_after_seconds with
   | some s => now - info.creation_time ≥ s
   | none => false)

/-- The synthetic success response built by `force_reconnect`. -/
def retryResponse (msg : JValue) (channel clientId : Option JValue) : Response :=
  ⟨200, JValue.arr [JValue.obj
    [("id", (objGet msg "id").getD (JValue.str "1")),
     ("channel", optToJ channel),
     ("clientId", optToJ clientId),
     ("successful", JValue.bool true),
     ("advice", JValue.obj [("reconnect", JValue.str "retry")])]]⟩

/-- `force_reconnect` from `adapters/reconnect.py`: on a known clientId
whose count or age exceeds the reconnection threshold, reset the count to
`1` and substitute a `retry`-advice response. -/
def forceReconnect (cfg : Config) (st : Store) (payload : JValue) (now : Int) :
    Except String (Option Response × Store) :=
  match pyIndex0 payload with
  | Except.error e => Except.error e
  | Except.ok msg =>
    match pyGet msg "clientId" with
    | Except.error e => Except.error e
    | Except.ok clientId =>
      match pyGet msg "channel" with
      | Except.error e => Except.error e
      | Except.ok channel =>
        match pyInDict clientId st with
        | Except.error e => Except.error e
        | Except.ok false => Except.ok (none, st)
        | Except.ok true =>
          match clientId with
          | some (JValue.str s) =>
            match storeLookup st s with
            | some info =>
              if reconnectCond cfg info now then
                Except.ok (some (retryResponse msg channel clientId),
                  storeSet st s ⟨1, info.creation_time⟩)
              else Except.ok (none, st)
            | none => Except.ok (none, st)
          | _ => Except.ok (none, st)

/-- `expire_client_id` from `adapters/expire.py`: silently remove a known
clientId whose count or age reached the expiry threshold; always falls
through (returns no response). -/
def expireClientId (cfg : Config) (st : Store) (payload : JValue) (now : Int) :
    Except String (Option Response × Store) :=
  match pyIndex0 payload with
  | Except.error e => Except.error e
  | Except.ok msg =>
    match pyGet msg "clientId" with
    | Except.error e => Except.error e
    | Except.ok clientId =>
      match pyInDict clientId st with
      | Except.error e => Except.error e
      | Except.ok false => Except.ok (none, st)
      | Except.ok true =>
        match clientId with
        | some (JValue.str s) =>
          match storeLookup st s with
          | some info =>
            if expireCond cfg info now then
              Except.ok (none, storeErase st s)
            else Except.ok (none, st)
          | none => Except.ok (none, st)
        | _ => Except.ok (none, st)

/-- `run_adapters`: `force_reconnect` then `expire_client_id`, stopping at
the first adapter returning a response. -/
def runAdapters (cfg : Config) (st : Store) (payload : JValue) (now : Int) :
    Except String (Option Response × Store) :=
  match forceReconnect cfg st payload now with
  | Except.error e => Except.error e
  | Except.ok (some r, st1) => Except.ok (some r, st1)
  | Except.ok (none, st1) => expireClientId cfg st1 payload now

/-! ## Channel handlers (`routes.py`) -/

/-- The handshake success envelope (`routes.py:72-82`; note the hardcoded
`interval 0` / `timeout 45000`). -/
def handshakeResponse (msg : JValue) (clientId : String) : Response :=
  ⟨200, JValue.arr [JValue.obj
    [("id", (objGet msg "id").getD (JValue.str "0")),
     ("channel", JValue.str "/meta/handshake"),
     ("successful", JValue.bool true),
     ("version", JValue.str "1.0"),
     ("supportedConnectionTypes", JValue.arr [JValue.str "long-polling"]),
     ("clientId", JValue.str clientId),
     ("advice", JValue.obj
       [("reconnect", JValue.str "retry"),
        ("interval", JValue.num 0),
        ("timeout", JValue.num 45000)])]]⟩

/-- `handshake` from `routes.py`: generates a fresh client identifier
(ignoring any incoming `clientId`), stores a new session with
`connection_count = 1`, and returns the handshake envelope.  The store
mutation precedes the response construction, as in the source. -/
def handshake (st : AppState) (payload : JValue) (now : Int) :
    Except String Response × AppState :=
  match pyIndex0 payload with
  | Except.error e => (Except.error e, st)
  | Except.ok msg =>
    let clientId := genUuid st.uuid_counter
    let st1 : AppState :=
      ⟨storeSet st.client_ids clientId ⟨1, now⟩, st.uuid_counter + 1⟩
    match msg with
    | JValue.obj _ => (Except.ok (handshakeResponse msg clientId), st1)
    | _ => (Except.error "AttributeError", st1)

/-- `if "advice" in payload[0] and "reconnect" in payload[0]["advice"]`:
the client-supplied reconnect value carried into the connect advice. -/
def adviceExtra (msg : JValue) : Except String (Option JValue) :=
  match pyContains msg "advice" with
  | Except.error e => Except.error e
  | Except.ok false => Except.ok none
  | Except.ok true =>
    match pyGetItem msg "advice" with
    | Except.error e => Except.error e
    | Except.ok a =>
      match pyContains a "reconnect" with
      | Except.error e => Except.error e
      | Except.ok false => Except.ok none
      | Except.ok true =>
        match pyGetItem a "reconnect" with
        | Except.error e => Except.error e
        | Except.ok v => Except.ok (some v)

/-- The normal connect success envelope (`routes.py:98-110`). -/
def connectResponse (cfg : Config) (msg : JValue) (clientId : Option JValue)
    (extra : Option JValue) : Response :=
  ⟨200, JValue.arr [JValue.obj
    [("id", (objGet msg "id").getD (JValue.str "1")),
     ("channel", JValue.str "/meta/connect"),
     ("clientId", optToJ clientId),
     ("successful", JValue.bool true),
     ("advice", JValue.obj
       ([("interval", JValue.num cfg.connect_interval),
         ("timeout", JValue.num cfg.connect_timeout)] ++
        match extra with
        | some v => [("reconnect", v)]
        | none => []))]]⟩

/-- `connect` from `routes.py`: runs the adapter chain a second time and
returns its response when present; otherwise builds the normal connect
envelope (echoing a client-supplied `advice.reconnect`). -/
def connect (cfg : Config) (st : Store) (payload : JValue) (now : Int) :
    Except String Response × Store :=
  match pyIndex0 payload with
  | Except.error e => (Except.error e, st)
  | Except.ok msg =>
    match pyGet msg "clientId" with
    | Except.error e => (Except.error e, st)
    | Except.ok clientId =>
      match runAdapters cfg st payload now with
      | Except.error e => (Except.error e, st)
      | Except.ok (some r, st1) => (Except.ok r, st1)
      | Except.ok (none, st1) =>
        match adviceExtra msg with
        | Except.error e => (Except.error e, st1)
        | Except.ok extra =>
          (Except.ok (connectResponse cfg msg clientId extra), st1)

/-- `subscribe` from `routes.py`: stateless echo. -/
def subscribe (st : Store) (payload : JValue) : Except String Response × Store :=
  match pyIndex0 payload with
  | Except.error e => (Except.error e, st)
  | Except.ok (JValue.obj fs) =>
    (Except.ok ⟨200, JValue.arr [JValue.obj
      [("id", (jget fs "id").getD (JValue.str "2")),
       ("channel", JValue.str "/meta/subscribe"),
       ("clientId", optToJ (jget fs "clientId")),
       ("subscription", (jget fs "subscription").getD (JValue.str "mock-subscription")),
       ("successful", JValue.bool true)]]⟩, st)
  | Except.ok _ => (Except.error "AttributeError", st)

/-- `unsubscribe` from `routes.py`: stateless echo. -/
def unsubscribe (st : Store) (payload : JValue) : Except String Response × Store :=
  match pyIndex0 payload with
  | Except.error e => (Except.error e, st)
  | Except.ok (JValue.obj fs) =>
    (Except.ok ⟨200, JValue.arr [JValue.obj
      [("id", (jget fs "id").getD (JValue.str "3")),
       ("channel", JValue.str "/meta/unsubscribe"),
       ("clientId", optToJ (jget fs "clientId")),
       ("subscription", (jget fs "subscription").getD (JValue.str "mock-subscription")),
       ("successful", JValue.bool true)]]⟩, st)
  | Except.ok _ => (Except.error "AttributeError", st)

/-- `disconnect` from `routes.py`: removes the clientId's session when
present and returns a success envelope echoing the clientId. -/
def disconnect (st : Store) (payload : JValue) : Except String Response × Store :=
  match pyIndex0 payload with
  | Except.error e => (Except.error e, st)
  | Except.ok (JValue.obj fs) =>
    let clientId := jget fs "clientId"
    match pyInDict clientId st with
    | Except.error e => (Except.error e, st)
    | Except.ok b =>
      let st1 :=
        match clientId, b with
        | some (JValue.str s), true => storeErase st s
        | _, _ => st
      (Except.ok ⟨200, JValue.arr [JValue.obj
        [("id", (jget fs "id").getD (JValue.str "4")),
         ("channel", JValue.str "/meta/disconnect"),
         ("clientId", optToJ clientId),
         ("successful", JValue.bool true)]]⟩, st1)
  | Except.ok _ => (Except.error "AttributeError", st)

/-! ## Dispatcher (`routes.py: process_request`) -/

/-- The unknown-channel error envelope (`routes.py:51-54`). -/
def unknownChannelResponse : Response :=
  ⟨404, JValue.arr [JValue.obj
    [("successful", JValue.bool false),
     ("error", JValue.str "404::Unknown Channel")]]⟩

/-- The envelope produced by the dispatcher's `except` block
(`routes.py:55-60`). -/
def internalErrorResponse (e : String) : Response :=
  ⟨500, JValue.arr [JValue.obj
    [("successful", JValue.bool false),
     ("error", JValue.str ("500::Internal Server Error: " ++ e))]]⟩

/-- The channel routing inside the dispatcher's `try` block. -/
def dispatchChannel (cfg : Config) (st : AppState) (payload : JValue)
    (channel : Option JValue) (now : Int) : Except String Response × AppState :=
  if channelIs channel "/meta/handshake" then handshake st payload now
  else if channelIs channel "/meta/connect" then
    let (r, s) := connect cfg st.client_ids payload now
    (r, ⟨s, st.uuid_counter⟩)
  else if channelIs channel "/meta/subscribe" then
    let (r, s) := subscribe st.client_ids payload
    (r, ⟨s, st.uuid_counter⟩)
  else if channelIs channel "/meta/unsubscribe" then
    let (r, s) := unsubscribe st.client_ids payload
    (r, ⟨s, st.uuid_counter⟩)
  else if channelIs channel "/meta/disconnect" then
    let (r, s) := disconnect st.client_ids payload
    (r, ⟨s, st.uuid_counter⟩)
  else (Except.ok unknownChannelResponse, st)

/-- `process_request` from `routes.py`.  The body is the parsed JSON
(`none` when `request.json()` raised, in which case the payload is `[]`).
The channel extraction `payload[0].get("channel")` and the first adapter
run happen OUTSIDE the `try` block, so a fault there is `Outcome.crash`
(escaping the dispatcher); faults inside the channel handlers are caught
and converted into the 500 envelope. -/
def processPayload (cfg : Config) (st : AppState) (payload : JValue)
    (now : Int) : Outcome × AppState :=
  match runValidators cfg st.client_ids payload with
  | Except.error e => (Outcome.crash e, st)
  | Except.ok (some r, s1) => (Outcome.ok r, ⟨s1, st.uuid_counter⟩)
  | Except.ok (none, s1) =>
    match pyIndex0 payload with
    | Except.error e => (Outcome.crash e, ⟨s1, st.uuid_counter⟩)
    | Except.ok headMsg =>
      match pyGet headMsg "channel" with
      | Except.error e => (Outcome.crash e, ⟨s1, st.uuid_counter⟩)
      | Except.ok channel =>
        if ¬ channelIs channel "/meta/handshake" then
          match runAdapters cfg s1 payload now with
          | Except.error e => (Outcome.crash e, ⟨s1, st.uuid_counter⟩)
          | Except.ok (some r, s2) => (Outcome.ok r, ⟨s2, st.uuid_counter⟩)
          | Except.ok (none, s2) =>
            match dispatchChannel cfg ⟨s2, st.uuid_counter⟩ payload channel now with
            | (Except.ok r, st3) => (Outcome.ok r, st3)
            | (Except.error e, st3) => (Outcome.ok (internalErrorResponse e), st3)
        else
          match dispatchChannel cfg ⟨s1, st.uuid_counter⟩ payload channel now with
          | (Except.ok r, st3) => (Outcome.ok r, st3)
          | (Except.error e, st3) => (Outcome.ok (internalErrorResponse e), st3)

def processRequest (cfg : Config) (st : AppState) (body : Option JValue)
    (now : Int) : Outcome × AppState :=
  processPayload cfg st (body.getD (JValue.arr [])) now

/-! ## Decorator-based validation (`aiocometd_mock/validators.py`, wired in
`main.py` via `@validate_cometd_request({...})` on each handler)

This is the snapshot of the design where per-channel required-field sets
are enforced before the handler runs. -/

/-- Python `<` on strings (code-point lexicographic). -/
def listLtChar : List Char → List Char → Bool
  | [], [] => false
  | [], _ :: _ => true
  | _ :: _, [] => false
  | a :: as, b :: bs =>
    if a.val < b.val then true
    else if b.val < a.val then false
    else listLtChar as bs

def strLtB (a b : String) : Bool := listLtChar a.data b.data

def insertSorted (x : String) : List String → List String
  | [] => [x]
  | y :: ys => if strLtB x y then x :: y :: ys else y :: insertSorted x ys

/-- Python `sorted` on a list of (distinct) strings. -/
def sortStrs : List String → List String
  | [] => []
  | x :: xs => insertSorted x (sortStrs xs)

inductive VResult where
  | respond (r : Response)
  | proceed (payload : JValue)

def jsonParseErrorResponse : Response :=
  ⟨400, JValue.arr [JValue.obj
    [("channel", JValue.str "/meta/error"),
     ("successful", JValue.bool false),
     ("error", JValue.str "400::bad_request,JSON_parse_error"),
     ("advice", JValue.obj [("reconnect", JValue.str "none")])]]⟩

def invalidPayloadResponse : Response :=
  ⟨400, JValue.arr [JValue.obj
    [("channel", JValue.str "/meta/error"),
     ("successful", JValue.bool false),
     ("error", JValue.str "400::bad_request,invalid_payload"),
     ("advice", JValue.obj [("reconnect", JValue.str "none")])]]⟩

/-- The missing-required-fields envelope of `validate_cometd_request`:
`"401::<sorted, comma-joined missing fields>::missing_required_fields"`,
HTTP status 400, `advice.reconnect = "none"`. -/
def missingFieldsResponse (messageId channel : Option JValue)
    (missing : List String) : Response :=
  ⟨400, JValue.arr [JValue.obj
    [("id", optToJ messageId),
     ("channel", optToJ channel),
     ("successful", JValue.bool false),
     ("error", JValue.str
       ("401::" ++ String.intercalate "," missing ++ "::missing_required_fields")),
     ("advice", JValue.obj [("reconnect", JValue.str "none")])]]⟩

/-- `validate_cometd_request(required_fields)` applied to a request body:
either produces the validation error envelope, or hands the parsed payload
to the wrapped handler. -/
def validateCometdRequest (noValidation : Bool) (required : List String)
    (body : Option JValue) : Except String VResult :=
  if noValidation then Except.ok (VResult.proceed (body.getD (JValue.arr [])))
  else
    match body with
    | none => Except.ok (VResult.respond jsonParseErrorResponse)
    | some payload =>
      match payload with
      | JValue.arr (first :: _) =>
        match first with
        | JValue.obj fs =>
          let missing := sortStrs (required.filter (fun f => (jget fs f).isNone))
          if missing.isEmpty then Except.ok (VResult.proceed payload)
          else Except.ok (VResult.respond
            (missingFieldsResponse (jget fs "id") (jget fs "channel") missing))
        | _ => Except.error "AttributeError"
      | JValue.arr [] => Except.ok (VResult.respond invalidPayloadResponse)
      | _ => Except.ok (VResult.respond invalidPayloadResponse)

/-- A handler decorated with `@validate_cometd_request(required)`: the
wrapped handler runs only when validation proceeds. -/
def decoratedHandler {σ : Type} (noValidation : Bool) (required : List String)
    (handler : JValue → σ → Response × σ) (body : Option JValue) (st : σ) :
    Except String (Response × σ) :=
  match validateCometdRequest noValidation required body with
  | Except.error e => Except.error e
  | Except.ok (VResult.respond r) => Except.ok (r, st)
  | Except.ok (VResult.proceed p) => Except.ok (handler p st)

/-- The per-channel required-field sets from `main.py`'s decorators:
handshake `{id, channel}`, connect `{clientId, id}`,
subscribe/unsubscribe `{clientId, subscription}`, disconnect `{clientId}`. -/
def requiredFieldsFor : String → List String
  | "/meta/handshake" => ["id", "channel"]
  | "/meta/connect" => ["clientId", "id"]
  | "/meta/subscribe" => ["clientId", "subscription"]
  | "/meta/unsubscribe" => ["clientId", "subscription"]
  | "/meta/disconnect" => ["clientId"]
  | _ => []

/-! ## Store lemmas -/

theorem storeLookup_set_self (st : Store) (k : String) (v : Session) :
    storeLookup (storeSet st k v) k = some v := by
  induction st with
  | nil => simp [storeSet, storeLookup]
  | cons hd tl ih =>
    obtain ⟨k', v'⟩ := hd
    by_cases h : k' = k <;> simp [storeSet, storeLookup, h, ih]

theorem storeLookup_set_ne (st : Store) (k k' : String) (v : Session)
    (h : k' ≠ k) :
    storeLookup (storeSet st k v) k' = storeLookup st k' := by
  induction st with
  | nil =>
    simp only [storeSet, storeLookup]
    rw [if_neg (fun he => h he.symm)]
  | cons hd tl ih =>
    obtain ⟨k₀, v₀⟩ := hd
    by_cases h₀ : k₀ = k
    · have hk0 : ¬ k₀ = k' := fun he => h (he.symm.trans h₀)
      have hk : ¬ k = k' := fun he => h he.symm
      simp [storeSet, storeLookup, h₀, hk0, hk]
    · simp [storeSet, storeLookup, h₀, ih]

theorem storeLookup_erase_self (st : Store) (k : String) :
    storeLookup (storeErase st k) k = none := by
  induction st with
  | nil => simp [storeErase, storeLookup]
  | cons hd tl ih =>
    obtain ⟨k₀, v₀⟩ := hd
    by_cases h₀ : k₀ = k <;> simp [storeErase, storeLookup, h₀, ih]

theorem storeLookup_erase_ne (st : Store) (k k' : String) (h : k' ≠ k) :
    storeLookup (storeErase st k) k' = storeLookup st k' := by
  induction st with
  | nil => simp [storeErase, storeLookup]
  | cons hd tl ih =>
    obtain ⟨k₀, v₀⟩ := hd
    by_cases h₀ : k₀ = k
    · have hk0 : ¬ k₀ = k' := fun he => h (he.symm.trans h₀)
      have hk : ¬ k = k' := fun he => h he.symm
      simp [storeErase, storeLookup, h₀, hk0, hk, ih]
    · simp [storeErase, storeLookup, h₀, ih]

theorem genUuid_inj {a b : Nat} (h : genUuid a = genUuid b) : a = b := by
  have hd : List.replicate (a + 1) 'u' = List.replicate (b + 1) 'u' :=
    congrArg String.data h
  have hlen := congrArg List.length hd
  simp at hlen
  omega

/-! ## C10: disconnect removes exactly the target session -/

/-- **C10**: for every disconnect request whose first message carries a
clientId present in the session store, the handler removes exactly that
clientId's entry (it is absent afterwards, and every other clientId's
entry is untouched) and returns a success envelope echoing the removed
clientId. -/
theorem disconnect_removes_exactly_target (st : Store) (fs : JFields)
    (rest : List JValue) (s : String) (e : Session)
    (hcid : jget fs "clientId" = some (JValue.str s))
    (hmem : storeLookup st s = some e) :
    disconnect st (JValue.arr (JValue.obj fs :: rest)) =
      (Except.ok ⟨200, JValue.arr [JValue.obj
        [("id", (jget fs "id").getD (JValue.str "4")),
         ("channel", JValue.str "/meta/disconnect"),
         ("clientId", JValue.str s),
         ("successful", JValue.bool true)]]⟩, storeErase st s) ∧
    storeLookup (storeErase st s) s = none ∧
    (∀ k, k ≠ s → storeLookup (storeErase st s) k = storeLookup st k) := by
  refine ⟨?_, storeLookup_erase_self st s, fun k hk => storeLookup_erase_ne st s k hk⟩
  simp [disconnect, pyIndex0, pyInDict, hcid, hmem, optToJ]

/-- Witness for C10 at a concrete two-session store. -/
theorem disconnect_removes_exactly_target_witness :
    disconnect [("c1", ⟨3, 10⟩), ("c2", ⟨5, 7⟩)]
        (JValue.arr [JValue.obj [("clientId", JValue.str "c1")]]) =
      (Except.ok ⟨200, JValue.arr [JValue.obj
        [("id", JValue.str "4"),
         ("channel", JValue.str "/meta/disconnect"),
         ("clientId", JValue.str "c1"),
         ("successful", JValue.bool true)]]⟩, [("c2", ⟨5, 7⟩)]) ∧
    storeLookup (storeErase [("c1", ⟨3, 10⟩), ("c2", ⟨5, 7⟩)] "c1") "c1" = none ∧
    (∀ k, k ≠ "c1" →
      storeLookup (storeErase [("c1", ⟨3, 10⟩), ("c2", ⟨5, 7⟩)] "c1") k =
        storeLookup [("c1", ⟨3, 10⟩), ("c2", ⟨5, 7⟩)] k) :=
  disconnect_removes_exactly_target _ _ [] "c1" ⟨3, 10⟩ rfl rfl

/-! ## C6: per-channel required-field validation (decorator pipeline) -/

theorem insertSorted_length (x : String) (l : List String) :
    (insertSorted x l).length = l.length + 1 := by
  induction l with
  | nil => simp [insertSorted]
  | cons y ys ih =>
    by_cases h : strLtB x y <;> simp [insertSorted, h, ih]

theorem sortStrs_length (l : List String) : (sortStrs l).length = l.length := by
  induction l with
  | nil => simp [sortStrs]
  | cons x xs ih => simp [sortStrs, insertSorted_length, ih]

/-- **C6**: with validation enabled, a batch whose first message is missing
some required field of its destination channel (handshake `{id, channel}`,
connect `{clientId, id}`, subscribe/unsubscribe `{clientId, subscription}`,
disconnect `{clientId}`) makes the decorated pipeline answer the
`"401::<sorted, comma-joined missing fields>::missing_required_fields"`
envelope with `advice.reconnect = "none"` (HTTP status 400), without
running the wrapped handler: the result is this envelope and the
untouched state, for **every** handler and every state. -/
theorem missing_required_fields_rejected {σ : Type}
    (handler : JValue → σ → Response × σ) (st : σ)
    (ch : String) (fs : JFields) (rest : List JValue)
    (_hch : ch ∈ ["/meta/handshake", "/meta/connect", "/meta/subscribe",
                  "/meta/unsubscribe", "/meta/disconnect"])
    (hmiss : ∃ f ∈ requiredFieldsFor ch, jget fs f = none) :
    decoratedHandler false (requiredFieldsFor ch) handler
        (some (JValue.arr (JValue.obj fs :: rest))) st =
      Except.ok (missingFieldsResponse (jget fs "id") (jget fs "channel")
        (sortStrs ((requiredFieldsFor ch).filter (fun f => (jget fs f).isNone))),
        st) := by
  obtain ⟨f, hf, hnone⟩ := hmiss
  have hfilter : f ∈ (requiredFieldsFor ch).filter (fun f => (jget fs f).isNone) := by
    rw [List.mem_filter]
    exact ⟨hf, by simp [hnone]⟩
  have hlen : 0 < ((requiredFieldsFor ch).filter
      (fun f => (jget fs f).isNone)).length := List.length_pos.mpr (by
    intro hcon
    rw [hcon] at hfilter
    exact absurd hfilter (List.not_mem_nil f))
  have hne : (sortStrs ((requiredFieldsFor ch).filter
      (fun f => (jget fs f).isNone))).isEmpty = false := by
    rw [List.isEmpty_eq_false_iff_exists_mem]
    have : 0 < (sortStrs ((requiredFieldsFor ch).filter
        (fun f => (jget fs f).isNone))).length := by
      rw [sortStrs_length]
      exact hlen
    exact List.exists_mem_of_length_pos this
  simp [decoratedHandler, validateCometdRequest, hne]

/-- Witness for C6: a connect batch missing both `clientId` and `id`. -/
theorem missing_required_fields_rejected_witness :
    decoratedHandler false (requiredFieldsFor "/meta/connect")
        (fun _ s => (⟨200, JValue.null⟩, s))
        (some (JValue.arr [JValue.obj [("channel", JValue.str "/meta/connect")]]))
        (0 : Nat) =
      Except.ok (⟨400, JValue.arr [JValue.obj
        [("id", JValue.null),
         ("channel", JValue.str "/meta/connect"),
         ("successful", JValue.bool false),
         ("error", JValue.str "401::clientId,id::missing_required_fields"),
         ("advice", JValue.obj [("reconnect", JValue.str "none")])]]⟩, 0) :=
  missing_required_fields_rejected _ 0 "/meta/connect" _ []
    (by simp) ⟨"clientId", by simp [requiredFieldsFor], rfl⟩

/-! ## C4: unknown clientId rejection leaves the store untouched -/

/-- **C4**: with validation enabled, every structurally valid non-handshake
request whose first message's clientId is absent from the session store is
answered by the `unknown_client_id` error envelope
(`"401::<clientId>::unknown_client_id"`, `advice.reconnect = "handshake"`,
HTTP status 400) and the application state — in particular the session
store — is left completely unchanged. -/
theorem unknown_client_id_rejected (cfg : Config) (st : AppState)
    (fs : JFields) (rest : List JValue) (ch s : String) (now : Int)
    (hnv : cfg.no_validation = false)
    (hvr : validateRequest cfg (JValue.arr (JValue.obj fs :: rest)) = none)
    (hch : jget fs "channel" = some (JValue.str ch))
    (hns : ch ≠ "/meta/handshake")
    (hcid : jget fs "clientId" = some (JValue.str s))
    (habs : storeLookup st.client_ids s = none) :
    processRequest cfg st (some (JValue.arr (JValue.obj fs :: rest))) now =
      (Outcome.ok (unknownClientIdResponse (jget fs "id")
        (some (JValue.str ch)) (some (JValue.str s))), st) := by
  by_cases hse : s = ""
  · subst hse
    simp [processRequest, processPayload, runValidators, hnv, hvr, validateClientId,
      pyIndex0, pyGet, hcid, hch, channelIs, hns, truthy, objGet]
  · simp [processRequest, processPayload, runValidators, hnv, hvr, validateClientId,
      pyIndex0, pyGet, hcid, hch, channelIs, hns, truthy, hse,
      pyInDict, habs, objGet]

/-- Witness for C4: connect with unknown `clientId: "ghost"` against a
store holding one unrelated session. -/
theorem unknown_client_id_rejected_witness :
    processRequest ⟨false, 0, 45000, some 5, none, none, none⟩
        ⟨[("abc", ⟨2, 5⟩)], 3⟩
        (some (JValue.arr [JValue.obj
          [("id", JValue.str "2"),
           ("channel", JValue.str "/meta/connect"),
           ("clientId", JValue.str "ghost"),
           ("connectionType", JValue.str "long-polling")]])) 0 =
      (Outcome.ok ⟨400, JValue.arr [JValue.obj
        [("id", JValue.str "2"),
         ("channel", JValue.str "/meta/connect"),
         ("successful", JValue.bool false),
         ("error", JValue.str "401::ghost::unknown_client_id"),
         ("advice", JValue.obj [("reconnect", JValue.str "handshake")])]]⟩,
       ⟨[("abc", ⟨2, 5⟩)], 3⟩) :=
  unknown_client_id_rejected _ _ _ [] "/meta/connect" "ghost" 0
    rfl rfl rfl (by decide) rfl rfl

/-! ## C5: which requests change `connection_count` -/

/-- Counterexample to C5 as stated: after a handshake (count `1`), a
subscribe — a non-connect channel — on the same clientId raises the
session's `connection_count` to `2`: `validate_client_id` increments on
every validated non-handshake request, not only on connects. -/
theorem subscribe_increments_count_cex :
    storeLookup (processRequest ⟨false, 0, 45000, some 5, none, none, none⟩
        (processRequest ⟨false, 0, 45000, some 5, none, none, none⟩ freshApp
          (some (JValue.arr [JValue.obj
            [("id", JValue.str "1"),
             ("channel", JValue.str "/meta/handshake")]])) 0).2
        (some (JValue.arr [JValue.obj
          [("id", JValue.str "3"),
           ("channel", JValue.str "/meta/subscribe"),
           ("clientId", JValue.str (genUuid 0)),
           ("subscription", JValue.str "/foo/bar")]])) 0).2.client_ids
      (genUuid 0) = some ⟨2, 0⟩ ∧
    storeLookup (processRequest ⟨false, 0, 45000, some 5, none, none, none⟩
        freshApp (some (JValue.arr [JValue.obj
          [("id", JValue.str "1"),
           ("channel", JValue.str "/meta/handshake")]])) 0).2.client_ids
      (genUuid 0) = some ⟨1, 0⟩ :=
  ⟨rfl, rfl⟩

/-- **C5 (amended)**: `validate_client_id` increments the referenced
session's `connection_count` on **every** validated non-handshake request
— connect, subscribe, unsubscribe and disconnect alike — while messages on
the handshake channel leave the store unchanged.  (The adapter chain may
subsequently reset or expire the session; handshake-time value is `1`.) -/
theorem validate_client_id_increments_any_channel (st : Store) (fs : JFields)
    (rest : List JValue) (ch s : String) (info : Session)
    (hch : jget fs "channel" = some (JValue.str ch))
    (hns : ch ≠ "/meta/handshake")
    (hcid : jget fs "clientId" = some (JValue.str s))
    (hs : s ≠ "")
    (hlook : storeLookup st s = some info) :
    validateClientId st (JValue.arr (JValue.obj fs :: rest)) =
      Except.ok (none, storeSet st s
        ⟨info.connection_count + 1, info.creation_time⟩) ∧
    (∀ fs' rest', jget fs' "channel" = some (JValue.str "/meta/handshake") →
      validateClientId st (JValue.arr (JValue.obj fs' :: rest')) =
        Except.ok (none, st)) := by
  constructor
  · simp [validateClientId, pyIndex0, pyGet, hcid, hch, channelIs, hns,
      truthy, hs, pyInDict, hlook]
  · intro fs' rest' hch'
    simp [validateClientId, pyIndex0, pyGet, hch', channelIs]

/-- Witness for C5 (amended): a disconnect message increments the count
from 4 to 5; a handshake message leaves the store unchanged. -/
theorem validate_client_id_increments_any_channel_witness :
    validateClientId [("cid7", ⟨4, 2⟩)] (JValue.arr [JValue.obj
        [("channel", JValue.str "/meta/disconnect"),
         ("clientId", JValue.str "cid7")]]) =
      Except.ok (none, [("cid7", ⟨5, 2⟩)]) ∧
    validateClientId [("cid7", ⟨4, 2⟩)] (JValue.arr [JValue.obj
        [("channel", JValue.str "/meta/handshake")]]) =
      Except.ok (none, [("cid7", ⟨4, 2⟩)]) :=
  ⟨(validate_client_id_increments_any_channel [("cid7", ⟨4, 2⟩)]
      [("channel", JValue.str "/meta/disconnect"), ("clientId", JValue.str "cid7")]
      [] "/meta/disconnect" "cid7" ⟨4, 2⟩ rfl (by decide) rfl (by decide) rfl).1,
   (validate_client_id_increments_any_channel [("cid7", ⟨4, 2⟩)]
      [("channel", JValue.str "/meta/disconnect"), ("clientId", JValue.str "cid7")]
      [] "/meta/disconnect" "cid7" ⟨4, 2⟩ rfl (by decide) rfl (by decide) rfl).2
     [("channel", JValue.str "/meta/handshake")] [] rfl⟩

/-! ## C7: the `noValidation` bypass -/

/-- Values Python can hash (test a dict membership with). -/
def hashableOpt : Option JValue → Bool
  | some (JValue.arr _) => false
  | some (JValue.obj _) => false
  | _ => true

theorem forceReconnect_no_crash (cfg : Config) (st : Store) (fs : JFields)
    (rest : List JValue) (now : Int)
    (hh : hashableOpt (jget fs "clientId") = true) :
    ∃ o, forceReconnect cfg st (JValue.arr (JValue.obj fs :: rest)) now =
      Except.ok o := by
  rcases hcid : jget fs "clientId" with _ | v
  · simp [forceReconnect, pyIndex0, pyGet, hcid, pyInDict]
  · cases v with
    | null => simp [forceReconnect, pyIndex0, pyGet, hcid, pyInDict]
    | bool b => simp [forceReconnect, pyIndex0, pyGet, hcid, pyInDict]
    | num n => simp [forceReconnect, pyIndex0, pyGet, hcid, pyInDict]
    | arr xs => simp [hashableOpt, hcid] at hh
    | obj gs => simp [hashableOpt, hcid] at hh
    | str s =>
      simp only [forceReconnect, pyIndex0, pyGet, hcid, pyInDict]
      rcases hl : storeLookup st s with _ | info
      · simp [hl]
      · simp only [hl, Option.isSome_some]
        split <;> simp

theorem expireClientId_no_crash (cfg : Config) (st : Store) (fs : JFields)
    (rest : List JValue) (now : Int)
    (hh : hashableOpt (jget fs "clientId") = true) :
    ∃ o, expireClientId cfg st (JValue.arr (JValue.obj fs :: rest)) now =
      Except.ok o := by
  rcases hcid : jget fs "clientId" with _ | v
  · simp [expireClientId, pyIndex0, pyGet, hcid, pyInDict]
  · cases v with
    | null => simp [expireClientId, pyIndex0, pyGet, hcid, pyInDict]
    | bool b => simp [expireClientId, pyIndex0, pyGet, hcid, pyInDict]
    | num n => simp [expireClientId, pyIndex0, pyGet, hcid, pyInDict]
    | arr xs => simp [hashableOpt, hcid] at hh
    | obj gs => simp [hashableOpt, hcid] at hh
    | str s =>
      simp only [expireClientId, pyIndex0, pyGet, hcid, pyInDict]
      rcases hl : storeLookup st s with _ | info
      · simp [hl]
      · simp only [hl, Option.isSome_some]
        split <;> simp

theorem runAdapters_no_crash (cfg : Config) (st : Store) (fs : JFields)
    (rest : List JValue) (now : Int)
    (hh : hashableOpt (jget fs "clientId") = true) :
    ∃ o, runAdapters cfg st (JValue.arr (JValue.obj fs :: rest)) now =
      Except.ok o := by
  obtain ⟨⟨r1, s1⟩, h1⟩ := forceReconnect_no_crash cfg st fs rest now hh
  rcases r1 with _ | r
  · obtain ⟨o2, h2⟩ := expireClientId_no_crash cfg s1 fs rest now hh
    exact ⟨o2, by simp [runAdapters, h1, h2]⟩
  · exact ⟨(some r, s1), by simp [runAdapters, h1]⟩

/-- Counterexample to C7 as stated: with `noValidation = true` and a body
that is not valid JSON (so the payload falls back to `[]`), the channel
extraction `payload[0]` raises `IndexError` outside the dispatcher's
`try`; no handler executes and no response is produced. -/
theorem no_validation_empty_body_crashes_cex :
    processRequest ⟨true, 0, 45000, some 5, none, none, none⟩ freshApp none 0 =
      (Outcome.crash "IndexError", freshApp) ∧
    processRequest ⟨true, 0, 45000, some 5, none, none, none⟩ freshApp
        (some (JValue.arr [])) 0 =
      (Outcome.crash "IndexError", freshApp) :=
  ⟨rfl, rfl⟩

/-- **C7 (amended)**: when `noValidation` is true none of the §4.1
validation checks runs (`run_validators` is the identity), and for bodies
parsing to a non-empty list whose first element is an object with a
hashable `clientId`, the pipeline still produces a response.  (Bodies that
fail to parse, are not lists, or are empty lists instead fault at
`payload[0]` before any handler runs — see the counterexample.) -/
theorem no_validation_bypasses_checks (cfg : Config) (st : AppState)
    (fs : JFields) (rest : List JValue) (now : Int)
    (hnv : cfg.no_validation = true)
    (hh : hashableOpt (jget fs "clientId") = true) :
    (∀ payload s0, runValidators cfg s0 payload = Except.ok (none, s0)) ∧
    (∃ r s', processRequest cfg st
        (some (JValue.arr (JValue.obj fs :: rest))) now = (Outcome.ok r, s')) := by
  refine ⟨fun payload s0 => by simp [runValidators, hnv], ?_⟩
  have hval : runValidators cfg st.client_ids
      (JValue.arr (JValue.obj fs :: rest)) = Except.ok (none, st.client_ids) := by
    simp [runValidators, hnv]
  by_cases hc : channelIs (jget fs "channel") "/meta/handshake"
  · exact ⟨handshakeResponse (JValue.obj fs) (genUuid st.uuid_counter),
      ⟨storeSet st.client_ids (genUuid st.uuid_counter) ⟨1, now⟩,
       st.uuid_counter + 1⟩,
      by simp [processRequest, processPayload, hval, pyIndex0, pyGet, hc, dispatchChannel,
        handshake]⟩
  · obtain ⟨⟨r1, s2⟩, ha⟩ := runAdapters_no_crash cfg st.client_ids fs rest now hh
    rcases r1 with _ | r
    · rcases h2 : dispatchChannel cfg ⟨s2, st.uuid_counter⟩
          (JValue.arr (JValue.obj fs :: rest)) (jget fs "channel") now with ⟨res, st3⟩
      cases res with
      | error e =>
        exact ⟨internalErrorResponse e, st3,
          by simp [processRequest, processPayload, hval, pyIndex0, pyGet, hc, ha, h2]⟩
      | ok r =>
        exact ⟨r, st3,
          by simp [processRequest, processPayload, hval, pyIndex0, pyGet, hc, ha, h2]⟩
    · exact ⟨r, ⟨s2, st.uuid_counter⟩,
        by simp [processRequest, processPayload, hval, pyIndex0, pyGet, hc, ha]⟩

/-- Witness for C7 (amended): with `noValidation`, a disconnect message
missing its `clientId` still reaches the handler and gets a success
envelope. -/
theorem no_validation_bypasses_checks_witness :
    (runValidators ⟨true, 0, 45000, some 5, none, none, none⟩ []
        (JValue.str "garbage") = Except.ok (none, [])) ∧
    (∃ r s', processRequest ⟨true, 0, 45000, some 5, none, none, none⟩ freshApp
        (some (JValue.arr [JValue.obj
          [("id", JValue.str "5"),
           ("channel", JValue.str "/meta/disconnect")]])) 0 =
      (Outcome.ok r, s')) :=
  ⟨(no_validation_bypasses_checks ⟨true, 0, 45000, some 5, none, none, none⟩
      freshApp [("id", JValue.str "5"), ("channel", JValue.str "/meta/disconnect")]
      [] 0 rfl rfl).1 (JValue.str "garbage") [],
   (no_validation_bypasses_checks ⟨true, 0, 45000, some 5, none, none, none⟩
      freshApp [("id", JValue.str "5"), ("channel", JValue.str "/meta/disconnect")]
      [] 0 rfl rfl).2⟩

/-! ## C8: fault handling at the dispatcher boundary -/

/-- The shape `validate_request` guarantees for every message it accepts:
a JSON object with a string channel, carrying a string clientId whenever
the channel is not `/meta/handshake`. -/
def WellFormedMsg (m : JValue) : Prop :=
  ∃ fs c, m = JValue.obj fs ∧ jget fs "channel" = some (JValue.str c) ∧
    (c ≠ "/meta/handshake" → ∃ s, jget fs "clientId" = some (JValue.str s))

theorem validateMessages_none {msgs : List JValue}
    (h : validateMessages msgs = none) : ∀ m ∈ msgs, WellFormedMsg m := by
  induction msgs with
  | nil => intro m hm; cases hm
  | cons m rest ih =>
    have hsplit : WellFormedMsg m ∧ validateMessages rest = none := by
      cases m with
      | obj fs =>
        rcases hch : jget fs "channel" with _ | v
        · rw [validateMessages, hch] at h
          exact absurd h (by simp)
        · cases v with
          | str c =>
            rw [validateMessages, hch] at h
            by_cases h1 : startsWithSlash c
            · simp only [h1, not_true_eq_false, if_false, if_true] at h
              by_cases h2 : c ≠ "/meta/handshake" ∧ ¬ isStrOpt (jget fs "clientId")
              · rw [if_pos h2] at h
                exact absurd h (by simp)
              · rw [if_neg h2] at h
                have hcli : c ≠ "/meta/handshake" →
                    ∃ s, jget fs "clientId" = some (JValue.str s) := by
                  intro hc
                  rcases not_and_or.mp h2 with hc' | hstr
                  · exact absurd hc (not_not.mp (by simpa using hc'))
                  · rcases hv : jget fs "clientId" with _ | w
                    · rw [not_not] at hstr
                      rw [hv] at hstr
                      exact absurd hstr (by simp [isStrOpt])
                    · cases w <;> rw [not_not] at hstr <;> rw [hv] at hstr <;>
                        first
                          | exact ⟨_, rfl⟩
                          | exact absurd hstr (by simp [isStrOpt])
                have hrest : validateMessages rest = none := by
                  by_cases h3 : (c = "/meta/subscribe" ∨ c = "/meta/unsubscribe") ∧
                      ¬ validSubscription (jget fs "subscription")
                  · rw [if_pos h3] at h
                    exact absurd h (by simp)
                  · rw [if_neg h3] at h
                    by_cases h4 : c = "/meta/connect" ∧
                        ¬ isStrOpt (jget fs "connectionType")
                    · rw [if_pos h4] at h
                      exact absurd h (by simp)
                    · rwa [if_neg h4] at h
                exact ⟨⟨fs, c, rfl, hch, hcli⟩, hrest⟩
            · simp only [h1, not_false_eq_true, if_true] at h
              exact absurd h (by simp)
          | null => rw [validateMessages, hch] at h; exact absurd h (by simp)
          | bool b => rw [validateMessages, hch] at h; exact absurd h (by simp)
          | num n => rw [validateMessages, hch] at h; exact absurd h (by simp)
          | arr xs => rw [validateMessages, hch] at h; exact absurd h (by simp)
          | obj gs => rw [validateMessages, hch] at h; exact absurd h (by simp)
      | null => simp [validateMessages] at h
      | bool b => simp [validateMessages] at h
      | num n => simp [validateMessages] at h
      | str s => simp [validateMessages] at h
      | arr xs => simp [validateMessages] at h
    intro x hx
    rcases List.mem_cons.mp hx with rfl | hx
    · exact hsplit.1
    · exact ih hsplit.2 x hx

theorem validateRequest_none_shape {cfg : Config} {payload : JValue}
    (hnv : cfg.no_validation = false)
    (h : validateRequest cfg payload = none) :
    ∃ m rest, payload = JValue.arr (m :: rest) ∧ WellFormedMsg m := by
  cases payload with
  | arr msgs =>
    cases msgs with
    | nil => simp [validateRequest, hnv] at h
    | cons m rest =>
      have hv : validateMessages (m :: rest) = none := by
        simpa [validateRequest, hnv] using h
      exact ⟨m, rest, rfl, validateMessages_none hv m (by simp)⟩
  | null => simp [validateRequest, hnv] at h
  | bool b => simp [validateRequest, hnv] at h
  | num n => simp [validateRequest, hnv] at h
  | str s => simp [validateRequest, hnv] at h
  | obj fs => simp [validateRequest, hnv] at h

theorem validateClientId_no_crash (st : Store) (fs : JFields)
    (rest : List JValue) (c : String)
    (hch : jget fs "channel" = some (JValue.str c))
    (hcli : c ≠ "/meta/handshake" →
      ∃ s, jget fs "clientId" = some (JValue.str s)) :
    ∃ o, validateClientId st (JValue.arr (JValue.obj fs :: rest)) =
      Except.ok o := by
  by_cases hc : c = "/meta/handshake"
  · subst hc
    simp [validateClientId, pyIndex0, pyGet, hch, channelIs]
  · obtain ⟨s, hcid⟩ := hcli hc
    by_cases hse : s = ""
    · subst hse
      simp [validateClientId, pyIndex0, pyGet, hch, hcid, channelIs, hc, truthy]
    · rcases hl : storeLookup st s with _ | info
      · simp [validateClientId, pyIndex0, pyGet, hch, hcid, channelIs, hc,
          truthy, hse, pyInDict, hl]
      · simp [validateClientId, pyIndex0, pyGet, hch, hcid, channelIs, hc,
          truthy, hse, pyInDict, hl]

/-- Counterexample to C8 as stated: with validation bypassed, a request
body that parses to a JSON number faults at `payload[0]` **outside** the
dispatcher's `try` block: no 500 protocol envelope is produced (aiohttp
then answers with a bare HTTP error carrying no protocol body). -/
theorem crash_escapes_dispatcher_cex :
    processRequest ⟨true, 0, 45000, some 5, none, none, none⟩ freshApp
        (some (JValue.num 5)) 0 =
      (Outcome.crash "TypeError: not subscriptable", freshApp) := rfl

/-- **C8 (amended)**: with validation enabled every request produces a
protocol response (the pipeline never crashes), and a fault raised inside
a channel handler is caught at the dispatcher boundary and converted into
the 500 envelope (`successful:false`, error string) at the handler's
crash-time state.  Faults escape this net only when validation is
bypassed and the body is not a non-empty list of objects — see the
counterexample. -/
theorem faults_confined_to_dispatcher (cfg : Config) (st : AppState)
    (body : Option JValue) (now : Int)
    (hnv : cfg.no_validation = false) :
    (∃ r s', processRequest cfg st body now = (Outcome.ok r, s')) ∧
    (∀ (fs : JFields) (rest : List JValue) (s1 s2 : Store) (e : String)
        (st3 : AppState),
      runValidators cfg st.client_ids (JValue.arr (JValue.obj fs :: rest)) =
          Except.ok (none, s1) →
      channelIs (jget fs "channel") "/meta/handshake" = false →
      runAdapters cfg s1 (JValue.arr (JValue.obj fs :: rest)) now =
          Except.ok (none, s2) →
      dispatchChannel cfg ⟨s2, st.uuid_counter⟩
          (JValue.arr (JValue.obj fs :: rest)) (jget fs "channel") now =
          (Except.error e, st3) →
      processRequest cfg st (some (JValue.arr (JValue.obj fs :: rest))) now =
        (Outcome.ok (internalErrorResponse e), st3)) := by
  constructor
  · rcases hv : validateRequest cfg (body.getD (JValue.arr [])) with _ | r
    · obtain ⟨m, mrest, hpay, fs, c, hm, hch, hcli⟩ :=
        validateRequest_none_shape hnv hv
      subst hm
      obtain ⟨⟨rv, s1⟩, hvc⟩ :=
        validateClientId_no_crash st.client_ids fs mrest c hch hcli
      have hval : runValidators cfg st.client_ids (body.getD (JValue.arr [])) =
          Except.ok (rv, s1) := by
        rw [hpay] at hv ⊢
        simp [runValidators, hnv, hv, hvc]
      rw [hpay] at hval
      rcases rv with _ | resp
      · by_cases hc : c = "/meta/handshake"
        · subst hc
          exact ⟨handshakeResponse (JValue.obj fs) (genUuid st.uuid_counter),
            ⟨storeSet s1 (genUuid st.uuid_counter) ⟨1, now⟩, st.uuid_counter + 1⟩,
            by simp [processRequest, processPayload, hval, hpay, pyIndex0, pyGet, hch,
              channelIs, dispatchChannel, handshake]⟩
        · obtain ⟨s, hcid⟩ := hcli hc
          have hh : hashableOpt (jget fs "clientId") = true := by
            simp [hashableOpt, hcid]
          obtain ⟨⟨r1, s2⟩, ha⟩ := runAdapters_no_crash cfg s1 fs mrest now hh
          rcases r1 with _ | r
          · rcases h2 : dispatchChannel cfg ⟨s2, st.uuid_counter⟩
                (JValue.arr (JValue.obj fs :: mrest)) (some (JValue.str c)) now
              with ⟨res, st3⟩
            cases res with
            | error e =>
              exact ⟨internalErrorResponse e, st3,
                by simp [processRequest, processPayload, hval, hpay, pyIndex0, pyGet, hch,
                  channelIs, hc, ha, h2]⟩
            | ok r =>
              exact ⟨r, st3,
                by simp [processRequest, processPayload, hval, hpay, pyIndex0, pyGet, hch,
                  channelIs, hc, ha, h2]⟩
          · exact ⟨r, ⟨s2, st.uuid_counter⟩,
              by simp [processRequest, processPayload, hval, hpay, pyIndex0, pyGet, hch,
                channelIs, hc, ha]⟩
      · exact ⟨resp, ⟨s1, st.uuid_counter⟩,
          by simp [processRequest, processPayload, hpay, hval]⟩
    · exact ⟨r, ⟨st.client_ids, st.uuid_counter⟩,
        by simp [processRequest, processPayload, runValidators, hnv, hv]⟩
  · intro fs rest s1 s2 e st3 hval hc ha h2
    simp [processRequest, processPayload, hval, pyIndex0, pyGet, hc, ha, h2]

/-- Witness for C8 (amended): a connect whose `advice` field is the number
`7` makes the connect handler fault (`"reconnect" in 7`); the dispatcher
catches it and answers the 500 envelope. -/
theorem faults_confined_to_dispatcher_witness :
    (∃ r s', processRequest ⟨false, 0, 45000, some 5, none, none, none⟩
        ⟨[("u", ⟨1, 0⟩)], 1⟩
        (some (JValue.arr [JValue.obj
          [("id", JValue.str "2"),
           ("channel", JValue.str "/meta/connect"),
           ("clientId", JValue.str "u"),
           ("connectionType", JValue.str "long-polling"),
           ("advice", JValue.num 7)]])) 0 = (Outcome.ok r, s')) ∧
    processRequest ⟨false, 0, 45000, some 5, none, none, none⟩
        ⟨[("u", ⟨1, 0⟩)], 1⟩
        (some (JValue.arr [JValue.obj
          [("id", JValue.str "2"),
           ("channel", JValue.str "/meta/connect"),
           ("clientId", JValue.str "u"),
           ("connectionType", JValue.str "long-polling"),
           ("advice", JValue.num 7)]])) 0 =
      (Outcome.ok (internalErrorResponse "TypeError: argument not iterable"),
       ⟨[("u", ⟨2, 0⟩)], 1⟩) :=
  ⟨(faults_confined_to_dispatcher ⟨false, 0, 45000, some 5, none, none, none⟩
      ⟨[("u", ⟨1, 0⟩)], 1⟩
      (some (JValue.arr [JValue.obj
        [("id", JValue.str "2"),
         ("channel", JValue.str "/meta/connect"),
         ("clientId", JValue.str "u"),
         ("connectionType", JValue.str "long-polling"),
         ("advice", JValue.num 7)]])) 0 rfl).1,
   (faults_confined_to_dispatcher ⟨false, 0, 45000, some 5, none, none, none⟩
      ⟨[("u", ⟨1, 0⟩)], 1⟩
      (some (JValue.arr [JValue.obj
        [("id", JValue.str "2"),
         ("channel", JValue.str "/meta/connect"),
         ("clientId", JValue.str "u"),
         ("connectionType", JValue.str "long-polling"),
         ("advice", JValue.num 7)]])) 0 rfl).2
     [("id", JValue.str "2"),
      ("channel", JValue.str "/meta/connect"),
      ("clientId", JValue.str "u"),
      ("connectionType", JValue.str "long-polling"),
      ("advice", JValue.num 7)] []
     [("u", ⟨2, 0⟩)] [("u", ⟨2, 0⟩)]
     "TypeError: argument not iterable" ⟨[("u", ⟨2, 0⟩)], 1⟩
     rfl rfl rfl rfl⟩

/-! ## C9: the adapter chain fires at most once per request -/

theorem runAdapters_idem (cfg : Config) (fs : JFields) (rest : List JValue)
    (now : Int) (s s' : Store)
    (h : runAdapters cfg s (JValue.arr (JValue.obj fs :: rest)) now =
      Except.ok (none, s')) :
    runAdapters cfg s' (JValue.arr (JValue.obj fs :: rest)) now =
      Except.ok (none, s') := by
  rcases hcid : jget fs "clientId" with _ | v
  · obtain rfl : s = s' := by
      simpa [runAdapters, forceReconnect, expireClientId, pyIndex0, pyGet,
        hcid, pyInDict] using h
    simp [runAdapters, forceReconnect, expireClientId, pyIndex0, pyGet,
      hcid, pyInDict]
  · cases v with
    | null =>
      obtain rfl : s = s' := by
        simpa [runAdapters, forceReconnect, expireClientId, pyIndex0, pyGet,
          hcid, pyInDict] using h
      simp [runAdapters, forceReconnect, expireClientId, pyIndex0, pyGet,
        hcid, pyInDict]
    | bool b =>
      obtain rfl : s = s' := by
        simpa [runAdapters, forceReconnect, expireClientId, pyIndex0, pyGet,
          hcid, pyInDict] using h
      simp [runAdapters, forceReconnect, expireClientId, pyIndex0, pyGet,
        hcid, pyInDict]
    | num n =>
      obtain rfl : s = s' := by
        simpa [runAdapters, forceReconnect, expireClientId, pyIndex0, pyGet,
          hcid, pyInDict] using h
      simp [runAdapters, forceReconnect, expireClientId, pyIndex0, pyGet,
        hcid, pyInDict]
    | arr xs =>
      simp [runAdapters, forceReconnect, pyIndex0, pyGet, hcid, pyInDict] at h
    | obj gs =>
      simp [runAdapters, forceReconnect, pyIndex0, pyGet, hcid, pyInDict] at h
    | str k =>
      rcases hl : storeLookup s k with _ | info
      · obtain rfl : s = s' := by
          simpa [runAdapters, forceReconnect, expireClientId, pyIndex0, pyGet,
            hcid, pyInDict, hl] using h
        simp [runAdapters, forceReconnect, expireClientId, pyIndex0, pyGet,
          hcid, pyInDict, hl]
      · by_cases hrc : reconnectCond cfg info now
        · simp [runAdapters, forceReconnect, pyIndex0, pyGet, hcid,
            pyInDict, hl, hrc] at h
        · by_cases hec : expireCond cfg info now
          · obtain rfl : storeErase s k = s' := by
              simpa [runAdapters, forceReconnect, expireClientId, pyIndex0,
                pyGet, hcid, pyInDict, hl, hrc, hec] using h
            simp [runAdapters, forceReconnect, expireClientId, pyIndex0,
              pyGet, hcid, pyInDict, storeLookup_erase_self]
          · obtain rfl : s = s' := by
              simpa [runAdapters, forceReconnect, expireClientId, pyIndex0,
                pyGet, hcid, pyInDict, hl, hrc, hec] using h
            simp [runAdapters, forceReconnect, expireClientId, pyIndex0,
              pyGet, hcid, pyInDict, hl, hrc, hec]

/-- **C9**: a connect request invokes the adapter chain twice (once in the
dispatcher for every non-handshake channel, once inside the connect
handler), yet at most one adapter-substituted response is ever produced
and the forced-reconnect reset fires at most once per request:
(1) an adapter response short-circuits the dispatcher before the handler
(and its second invocation) runs; (2) an adapter run that produced no
response is idempotent — re-running it from its own result state changes
nothing; (3) hence a connect whose first adapter run produced no response
gets the normal connect envelope and exactly the first run's state. -/
theorem adapter_chain_single_fire (cfg : Config) (st : AppState)
    (fs : JFields) (rest : List JValue) (now : Int) :
    (∀ s1 r s2,
      runValidators cfg st.client_ids (JValue.arr (JValue.obj fs :: rest)) =
          Except.ok (none, s1) →
      channelIs (jget fs "channel") "/meta/handshake" = false →
      runAdapters cfg s1 (JValue.arr (JValue.obj fs :: rest)) now =
          Except.ok (some r, s2) →
      processRequest cfg st (some (JValue.arr (JValue.obj fs :: rest))) now =
        (Outcome.ok r, ⟨s2, st.uuid_counter⟩)) ∧
    (∀ s s',
      runAdapters cfg s (JValue.arr (JValue.obj fs :: rest)) now =
          Except.ok (none, s') →
      runAdapters cfg s' (JValue.arr (JValue.obj fs :: rest)) now =
          Except.ok (none, s')) ∧
    (∀ s1 s2 extra,
      runValidators cfg st.client_ids (JValue.arr (JValue.obj fs :: rest)) =
          Except.ok (none, s1) →
      jget fs "channel" = some (JValue.str "/meta/connect") →
      runAdapters cfg s1 (JValue.arr (JValue.obj fs :: rest)) now =
          Except.ok (none, s2) →
      adviceExtra (JValue.obj fs) = Except.ok extra →
      processRequest cfg st (some (JValue.arr (JValue.obj fs :: rest))) now =
        (Outcome.ok (connectResponse cfg (JValue.obj fs) (jget fs "clientId")
          extra), ⟨s2, st.uuid_counter⟩)) := by
  refine ⟨?_, fun s s' h => runAdapters_idem cfg fs rest now s s' h, ?_⟩
  · intro s1 r s2 hval hc ha
    simp [processRequest, processPayload, hval, pyIndex0, pyGet, hc, ha]
  · intro s1 s2 extra hval hch ha hadv
    have ha2 := runAdapters_idem cfg fs rest now s1 s2 ha
    simp [processRequest, processPayload, hval, pyIndex0, pyGet, hch, channelIs,
      dispatchChannel, connect, ha, ha2, hadv]

/-- Witness for C9: with `reconnectionInterval = 1` and a session at count
`1`, a connect lets the validator raise the count to `2`; the first
adapter run fires the reset (count back to `1`) and its `retry` response
short-circuits; and from the reset state a further adapter run produces
no response and no change. -/
theorem adapter_chain_single_fire_witness :
    processRequest ⟨false, 0, 45000, some 1, none, none, none⟩
        ⟨[("u", ⟨1, 0⟩)], 1⟩
        (some (JValue.arr [JValue.obj
          [("id", JValue.str "2"),
           ("channel", JValue.str "/meta/connect"),
           ("clientId", JValue.str "u"),
           ("connectionType", JValue.str "long-polling")]])) 0 =
      (Outcome.ok (retryResponse
        (JValue.obj [("id", JValue.str "2"),
          ("channel", JValue.str "/meta/connect"),
          ("clientId", JValue.str "u"),
          ("connectionType", JValue.str "long-polling")])
        (some (JValue.str "/meta/connect")) (some (JValue.str "u"))),
       ⟨[("u", ⟨1, 0⟩)], 1⟩) ∧
    runAdapters ⟨false, 0, 45000, some 1, none, none, none⟩ [("u", ⟨1, 0⟩)]
        (JValue.arr [JValue.obj
          [("id", JValue.str "2"),
           ("channel", JValue.str "/meta/connect"),
           ("clientId", JValue.str "u"),
           ("connectionType", JValue.str "long-polling")]]) 0 =
      Except.ok (none, [("u", ⟨1, 0⟩)]) :=
  ⟨(adapter_chain_single_fire ⟨false, 0, 45000, some 1, none, none, none⟩
      ⟨[("u", ⟨1, 0⟩)], 1⟩
      [("id", JValue.str "2"), ("channel", JValue.str "/meta/connect"),
       ("clientId", JValue.str "u"), ("connectionType", JValue.str "long-polling")]
      [] 0).1 [("u", ⟨2, 0⟩)] _ [("u", ⟨1, 0⟩)] rfl rfl rfl,
   (adapter_chain_single_fire ⟨false, 0, 45000, some 1, none, none, none⟩
      ⟨[("u", ⟨1, 0⟩)], 1⟩
      [("id", JValue.str "2"), ("channel", JValue.str "/meta/connect"),
       ("clientId", JValue.str "u"), ("connectionType", JValue.str "long-polling")]
      [] 0).2.1 [("u", ⟨1, 0⟩)] [("u", ⟨1, 0⟩)] rfl⟩

/-! ## C2: connection-count evolution -/

/-- Store evolution through adapters and handlers: any entry surviving the
step is untouched, or its count is exactly `1` (the forced-reconnect
reset, or a freshly created/overwritten handshake session). -/
def PostValStep (s s' : Store) : Prop :=
  ∀ k c', storeLookup s' k = some c' →
    c'.connection_count = 1 ∨ storeLookup s k = some c'

/-- Store evolution through the validator chain: any entry surviving is
untouched or incremented by exactly one. -/
def ValStep (s s' : Store) : Prop :=
  ∀ k c', storeLookup s' k = some c' →
    storeLookup s k = some c' ∨
    ∃ c, storeLookup s k = some c ∧
      c'.connection_count = c.connection_count + 1 ∧
      c'.creation_time = c.creation_time

theorem postval_refl (s : Store) : PostValStep s s := fun _ _ hl => Or.inr hl

theorem postval_trans {a b c : Store} (h1 : PostValStep a b)
    (h2 : PostValStep b c) : PostValStep a c := by
  intro k c' hl
  rcases h2 k c' hl with h | h
  · exact Or.inl h
  · exact h1 k c' h

theorem storeSetOne_postval (s : Store) (k0 : String) (ct : Int) :
    PostValStep s (storeSet s k0 ⟨1, ct⟩) := by
  intro k c' hl
  by_cases hk : k = k0
  · subst hk
    rw [storeLookup_set_self] at hl
    left
    obtain rfl : Session.mk 1 ct = c' := Option.some_injective _ hl
    rfl
  · rw [storeLookup_set_ne s k0 k _ hk] at hl
    exact Or.inr hl

theorem storeErase_postval (s : Store) (k0 : String) :
    PostValStep s (storeErase s k0) := by
  intro k c' hl
  by_cases hk : k = k0
  · subst hk
    rw [storeLookup_erase_self] at hl
    cases hl
  · rw [storeLookup_erase_ne s k0 k hk] at hl
    exact Or.inr hl

theorem valstep_refl (s : Store) : ValStep s s := fun _ _ hl => Or.inl hl

theorem storeSetInc_val (s : Store) (k0 : String) (info : Session)
    (hlook : storeLookup s k0 = some info) :
    ValStep s (storeSet s k0 ⟨info.connection_count + 1, info.creation_time⟩) := by
  intro k c' hl
  by_cases hk : k = k0
  · subst hk
    rw [storeLookup_set_self] at hl
    obtain rfl : Session.mk (info.connection_count + 1) info.creation_time = c' :=
      Option.some_injective _ hl
    exact Or.inr ⟨info, hlook, rfl, rfl⟩
  · rw [storeLookup_set_ne s k0 k _ hk] at hl
    exact Or.inl hl

theorem forceReconnect_postval {cfg : Config} {s : Store} {p : JValue}
    {now : Int} {r : Option Response} {s' : Store}
    (h : forceReconnect cfg s p now = Except.ok (r, s')) : PostValStep s s' := by
  rcases h0 : pyIndex0 p with e | msg <;> simp only [forceReconnect, h0] at h
  · cases h
  rcases h1 : pyGet msg "clientId" with e | cid <;> simp only [h1] at h
  · cases h
  rcases h2 : pyGet msg "channel" with e | chan <;> simp only [h2] at h
  · cases h
  rcases h3 : pyInDict cid s with e | b <;> simp only [h3] at h
  · cases h
  cases b
  · injection h with h'
    obtain ⟨rfl, rfl⟩ := Prod.mk.inj h'
    exact postval_refl s
  · rcases cid with _ | v
    · injection h with h'
      obtain ⟨rfl, rfl⟩ := Prod.mk.inj h'
      exact postval_refl s
    · cases v with
      | str k0 =>
        rcases h4 : storeLookup s k0 with _ | info <;> simp only [h4] at h
        · injection h with h'
          obtain ⟨rfl, rfl⟩ := Prod.mk.inj h'
          exact postval_refl s
        · by_cases h5 : reconnectCond cfg info now
          · rw [if_pos h5] at h
            injection h with h'
            obtain ⟨rfl, rfl⟩ := Prod.mk.inj h'
            exact storeSetOne_postval s k0 info.creation_time
          · rw [if_neg h5] at h
            injection h with h'
            obtain ⟨rfl, rfl⟩ := Prod.mk.inj h'
            exact postval_refl s
      | null =>
        injection h with h'
        obtain ⟨rfl, rfl⟩ := Prod.mk.inj h'
        exact postval_refl s
      | bool b' =>
        injection h with h'
        obtain ⟨rfl, rfl⟩ := Prod.mk.inj h'
        exact postval_refl s
      | num n =>
        injection h with h'
        obtain ⟨rfl, rfl⟩ := Prod.mk.inj h'
        exact postval_refl s
      | arr xs =>
        injection h with h'
        obtain ⟨rfl, rfl⟩ := Prod.mk.inj h'
        exact postval_refl s
      | obj gs =>
        injection h with h'
        obtain ⟨rfl, rfl⟩ := Prod.mk.inj h'
        exact postval_refl s

theorem expireClientId_postval {cfg : Config} {s : Store} {p : JValue}
    {now : Int} {r : Option Response} {s' : Store}
    (h : expireClientId cfg s p now = Except.ok (r, s')) : PostValStep s s' := by
  rcases h0 : pyIndex0 p with e | msg <;> simp only [expireClientId, h0] at h
  · cases h
  rcases h1 : pyGet msg "clientId" with e | cid <;> simp only [h1] at h
  · cases h
  rcases h3 : pyInDict cid s with e | b <;> simp only [h3] at h
  · cases h
  cases b
  · injection h with h'
    obtain ⟨rfl, rfl⟩ := Prod.mk.inj h'
    exact postval_refl s
  · rcases cid with _ | v
    · injection h with h'
      obtain ⟨rfl, rfl⟩ := Prod.mk.inj h'
      exact postval_refl s
    · cases v with
      | str k0 =>
        rcases h4 : storeLookup s k0 with _ | info <;> simp only [h4] at h
        · injection h with h'
          obtain ⟨rfl, rfl⟩ := Prod.mk.inj h'
          exact postval_refl s
        · by_cases h5 : expireCond cfg info now
          · rw [if_pos h5] at h
            injection h with h'
            obtain ⟨rfl, rfl⟩ := Prod.mk.inj h'
            exact storeErase_postval s k0
          · rw [if_neg h5] at h
            injection h with h'
            obtain ⟨rfl, rfl⟩ := Prod.mk.inj h'
            exact postval_refl s
      | null =>
        injection h with h'
        obtain ⟨rfl, rfl⟩ := Prod.mk.inj h'
        exact postval_refl s
      | bool b' =>
        injection h with h'
        obtain ⟨rfl, rfl⟩ := Prod.mk.inj h'
        exact postval_refl s
      | num n =>
        injection h with h'
        obtain ⟨rfl, rfl⟩ := Prod.mk.inj h'
        exact postval_refl s
      | arr xs =>
        injection h with h'
        obtain ⟨rfl, rfl⟩ := Prod.mk.inj h'
        exact postval_refl s
      | obj gs =>
        injection h with h'
        obtain ⟨rfl, rfl⟩ := Prod.mk.inj h'
        exact postval_refl s

theorem runAdapters_postval {cfg : Config} {s : Store} {p : JValue}
    {now : Int} {r : Option Response} {s' : Store}
    (h : runAdapters cfg s p now = Except.ok (r, s')) : PostValStep s s' := by
  rcases h0 : forceReconnect cfg s p now with e | o
  · rw [runAdapters, h0] at h
    cases h
  · obtain ⟨r1, s1⟩ := o
    rcases r1 with _ | resp
    · rw [runAdapters, h0] at h
      exact postval_trans (forceReconnect_postval h0) (expireClientId_postval h)
    · rw [runAdapters, h0] at h
      injection h with h'
      obtain ⟨rfl, rfl⟩ := Prod.mk.inj h'
      exact forceReconnect_postval h0

theorem connect_postval {cfg : Config} {s : Store} {p : JValue} {now : Int}
    {o : Except String Response} {s' : Store}
    (h : connect cfg s p now = (o, s')) : PostValStep s s' := by
  rcases h0 : pyIndex0 p with e | msg <;> simp only [connect, h0] at h
  · obtain ⟨rfl, rfl⟩ := Prod.mk.inj h
    exact postval_refl s
  rcases h1 : pyGet msg "clientId" with e | cid <;> simp only [h1] at h
  · obtain ⟨rfl, rfl⟩ := Prod.mk.inj h
    exact postval_refl s
  rcases h2 : runAdapters cfg s p now with e | ro <;> simp only [h2] at h
  · obtain ⟨rfl, rfl⟩ := Prod.mk.inj h
    exact postval_refl s
  obtain ⟨r1, s1⟩ := ro
  rcases r1 with _ | resp
  · rcases h3 : adviceExtra msg with e | extra <;> simp only [h3] at h <;>
      obtain ⟨rfl, rfl⟩ := Prod.mk.inj h <;>
      exact runAdapters_postval h2
  · obtain ⟨rfl, rfl⟩ := Prod.mk.inj h
    exact runAdapters_postval h2

theorem subscribe_postval {s : Store} {p : JValue}
    {o : Except String Response} {s' : Store}
    (h : subscribe s p = (o, s')) : PostValStep s s' := by
  rcases h0 : pyIndex0 p with e | msg <;> simp only [subscribe, h0] at h
  · obtain ⟨rfl, rfl⟩ := Prod.mk.inj h
    exact postval_refl s
  · cases msg <;> simp only [] at h <;> obtain ⟨rfl, rfl⟩ := Prod.mk.inj h <;>
      exact postval_refl s

theorem unsubscribe_postval {s : Store} {p : JValue}
    {o : Except String Response} {s' : Store}
    (h : unsubscribe s p = (o, s')) : PostValStep s s' := by
  rcases h0 : pyIndex0 p with e | msg <;> simp only [unsubscribe, h0] at h
  · obtain ⟨rfl, rfl⟩ := Prod.mk.inj h
    exact postval_refl s
  · cases msg <;> simp only [] at h <;> obtain ⟨rfl, rfl⟩ := Prod.mk.inj h <;>
      exact postval_refl s

theorem disconnect_postval {s : Store} {p : JValue}
    {o : Except String Response} {s' : Store}
    (h : disconnect s p = (o, s')) : PostValStep s s' := by
  rcases h0 : pyIndex0 p with e | msg <;> simp only [disconnect, h0] at h
  · obtain ⟨rfl, rfl⟩ := Prod.mk.inj h
    exact postval_refl s
  · cases msg with
    | obj fs =>
      rcases h1 : pyInDict (jget fs "clientId") s with e | b <;>
        simp only [h1] at h
      · obtain ⟨rfl, rfl⟩ := Prod.mk.inj h
        exact postval_refl s
      · rcases hcid : jget fs "clientId" with _ | v <;> rw [hcid] at h
        · cases b <;> simp only [] at h <;>
            obtain ⟨rfl, rfl⟩ := Prod.mk.inj h <;> exact postval_refl s
        · cases v with
          | str k0 =>
            cases b
            · simp only [] at h
              obtain ⟨rfl, rfl⟩ := Prod.mk.inj h
              exact postval_refl s
            · simp only [] at h
              obtain ⟨rfl, rfl⟩ := Prod.mk.inj h
              exact storeErase_postval s k0
          | null =>
            cases b <;> simp only [] at h <;>
              obtain ⟨rfl, rfl⟩ := Prod.mk.inj h <;> exact postval_refl s
          | bool b' =>
            cases b <;> simp only [] at h <;>
              obtain ⟨rfl, rfl⟩ := Prod.mk.inj h <;> exact postval_refl s
          | num n =>
            cases b <;> simp only [] at h <;>
              obtain ⟨rfl, rfl⟩ := Prod.mk.inj h <;> exact postval_refl s
          | arr xs =>
            cases b <;> simp only [] at h <;>
              obtain ⟨rfl, rfl⟩ := Prod.mk.inj h <;> exact postval_refl s
          | obj gs =>
            cases b <;> simp only [] at h <;>
              obtain ⟨rfl, rfl⟩ := Prod.mk.inj h <;> exact postval_refl s
    | null => simp only [] at h; obtain ⟨rfl, rfl⟩ := Prod.mk.inj h; exact postval_refl s
    | bool b => simp only [] at h; obtain ⟨rfl, rfl⟩ := Prod.mk.inj h; exact postval_refl s
    | num n => simp only [] at h; obtain ⟨rfl, rfl⟩ := Prod.mk.inj h; exact postval_refl s
    | str s0 => simp only [] at h; obtain ⟨rfl, rfl⟩ := Prod.mk.inj h; exact postval_refl s
    | arr xs => simp only [] at h; obtain ⟨rfl, rfl⟩ := Prod.mk.inj h; exact postval_refl s

theorem handshake_postval {st : AppState} {p : JValue} {now : Int}
    {o : Except String Response} {st' : AppState}
    (h : handshake st p now = (o, st')) :
    PostValStep st.client_ids st'.client_ids := by
  rcases h0 : pyIndex0 p with e | msg <;> simp only [handshake, h0] at h
  · obtain ⟨rfl, rfl⟩ := Prod.mk.inj h
    exact postval_refl _
  · cases msg <;> simp only [] at h <;> obtain ⟨rfl, rfl⟩ := Prod.mk.inj h <;>
      exact storeSetOne_postval _ _ _

theorem dispatchChannel_postval {cfg : Config} {st : AppState} {p : JValue}
    {chan : Option JValue} {now : Int} {o : Except String Response}
    {st' : AppState}
    (h : dispatchChannel cfg st p chan now = (o, st')) :
    PostValStep st.client_ids st'.client_ids := by
  unfold dispatchChannel at h
  by_cases c1 : channelIs chan "/meta/handshake"
  · rw [if_pos c1] at h
    exact handshake_postval h
  · rw [if_neg c1] at h
    by_cases c2 : channelIs chan "/meta/connect"
    · rw [if_pos c2] at h
      rcases hc : connect cfg st.client_ids p now with ⟨r, s⟩
      rw [hc] at h
      obtain ⟨rfl, rfl⟩ := Prod.mk.inj h
      exact connect_postval hc
    · rw [if_neg c2] at h
      by_cases c3 : channelIs chan "/meta/subscribe"
      · rw [if_pos c3] at h
        rcases hc : subscribe st.client_ids p with ⟨r, s⟩
        rw [hc] at h
        obtain ⟨rfl, rfl⟩ := Prod.mk.inj h
        exact subscribe_postval hc
      · rw [if_neg c3] at h
        by_cases c4 : channelIs chan "/meta/unsubscribe"
        · rw [if_pos c4] at h
          rcases hc : unsubscribe st.client_ids p with ⟨r, s⟩
          rw [hc] at h
          obtain ⟨rfl, rfl⟩ := Prod.mk.inj h
          exact unsubscribe_postval hc
        · rw [if_neg c4] at h
          by_cases c5 : channelIs chan "/meta/disconnect"
          · rw [if_pos c5] at h
            rcases hc : disconnect st.client_ids p with ⟨r, s⟩
            rw [hc] at h
            obtain ⟨rfl, rfl⟩ := Prod.mk.inj h
            exact disconnect_postval hc
          · rw [if_neg c5] at h
            obtain ⟨rfl, rfl⟩ := Prod.mk.inj h
            exact postval_refl _

theorem validateClientId_val {s : Store} {p : JValue}
    {r : Option Response} {s' : Store}
    (h : validateClientId s p = Except.ok (r, s')) : ValStep s s' := by
  rcases h0 : pyIndex0 p with e | msg <;> simp only [validateClientId, h0] at h
  · cases h
  rcases h1 : pyGet msg "clientId" with e | cid <;> simp only [h1] at h
  · cases h
  rcases h2 : pyGet msg "channel" with e | chan <;> simp only [h2] at h
  · cases h
  by_cases hh : channelIs chan "/meta/handshake"
  · rw [if_pos hh] at h
    injection h with h'
    obtain ⟨rfl, rfl⟩ := Prod.mk.inj h'
    exact valstep_refl s
  · rw [if_neg hh] at h
    by_cases ht : truthy cid
    · rw [if_neg (by simp [ht])] at h
      rcases h3 : pyInDict cid s with e | b <;> simp only [h3] at h
      · cases h
      cases b
      · injection h with h'
        obtain ⟨rfl, rfl⟩ := Prod.mk.inj h'
        exact valstep_refl s
      · rcases cid with _ | v
        · injection h with h'
          obtain ⟨rfl, rfl⟩ := Prod.mk.inj h'
          exact valstep_refl s
        · cases v with
          | str k0 =>
            rcases h4 : storeLookup s k0 with _ | info <;> simp only [h4] at h
            · injection h with h'
              obtain ⟨rfl, rfl⟩ := Prod.mk.inj h'
              exact valstep_refl s
            · injection h with h'
              obtain ⟨rfl, rfl⟩ := Prod.mk.inj h'
              exact storeSetInc_val s k0 info h4
          | null =>
            injection h with h'
            obtain ⟨rfl, rfl⟩ := Prod.mk.inj h'
            exact valstep_refl s
          | bool b' =>
            injection h with h'
            obtain ⟨rfl, rfl⟩ := Prod.mk.inj h'
            exact valstep_refl s
          | num n =>
            injection h with h'
            obtain ⟨rfl, rfl⟩ := Prod.mk.inj h'
            exact valstep_refl s
          | arr xs =>
            injection h with h'
            obtain ⟨rfl, rfl⟩ := Prod.mk.inj h'
            exact valstep_refl s
          | obj gs =>
            injection h with h'
            obtain ⟨rfl, rfl⟩ := Prod.mk.inj h'
            exact valstep_refl s
    · rw [if_pos (by simp [ht])] at h
      injection h with h'
      obtain ⟨rfl, rfl⟩ := Prod.mk.inj h'
      exact valstep_refl s

theorem runValidators_val {cfg : Config} {s : Store} {p : JValue}
    {r : Option Response} {s' : Store}
    (h : runValidators cfg s p = Except.ok (r, s')) : ValStep s s' := by
  unfold runValidators at h
  by_cases hnv : cfg.no_validation
  · rw [if_pos hnv] at h
    injection h with h'
    obtain ⟨rfl, rfl⟩ := Prod.mk.inj h'
    exact valstep_refl s
  · rw [if_neg hnv] at h
    rcases hv : validateRequest cfg p with _ | resp <;> rw [hv] at h
    · exact validateClientId_val h
    · injection h with h'
      obtain ⟨rfl, rfl⟩ := Prod.mk.inj h'
      exact valstep_refl s

theorem processPayload_evolution {cfg : Config} {st : AppState}
    {payload : JValue} {now : Int} {o : Outcome} {st' : AppState}
    (h : processPayload cfg st payload now = (o, st')) :
    ∃ smid, ValStep st.client_ids smid ∧ PostValStep smid st'.client_ids := by
  unfold processPayload at h
  rcases hv : runValidators cfg st.client_ids payload
    with e | ⟨_ | r, s1⟩ <;> simp only [hv] at h
  · obtain ⟨rfl, rfl⟩ := Prod.mk.inj h
    exact ⟨st.client_ids, valstep_refl _, postval_refl _⟩
  · have hval : ValStep st.client_ids s1 := runValidators_val hv
    rcases hi : pyIndex0 payload with e | msg <;> simp only [hi] at h
    · obtain ⟨rfl, rfl⟩ := Prod.mk.inj h
      exact ⟨s1, hval, postval_refl _⟩
    rcases hg : pyGet msg "channel" with e | chan <;> simp only [hg] at h
    · obtain ⟨rfl, rfl⟩ := Prod.mk.inj h
      exact ⟨s1, hval, postval_refl _⟩
    by_cases hc : channelIs chan "/meta/handshake"
    · rw [if_neg (not_not_intro hc)] at h
      rcases hd : dispatchChannel cfg ⟨s1, st.uuid_counter⟩ payload chan now
        with ⟨e3 | r3, st3⟩ <;> simp only [hd] at h <;>
        obtain ⟨rfl, rfl⟩ := Prod.mk.inj h <;>
        exact ⟨s1, hval, dispatchChannel_postval hd⟩
    · rw [if_pos hc] at h
      rcases ha : runAdapters cfg s1 payload now
        with e | ⟨_ | r2', s2⟩ <;> simp only [ha] at h
      · obtain ⟨rfl, rfl⟩ := Prod.mk.inj h
        exact ⟨s1, hval, postval_refl _⟩
      · rcases hd : dispatchChannel cfg ⟨s2, st.uuid_counter⟩ payload chan now
          with ⟨e3 | r3, st3⟩ <;> simp only [hd] at h <;>
          obtain ⟨rfl, rfl⟩ := Prod.mk.inj h <;>
          exact ⟨s1, hval,
            postval_trans (runAdapters_postval ha) (dispatchChannel_postval hd)⟩
      · obtain ⟨rfl, rfl⟩ := Prod.mk.inj h
        exact ⟨s1, hval, runAdapters_postval ha⟩
  · have hval : ValStep st.client_ids s1 := runValidators_val hv
    obtain ⟨rfl, rfl⟩ := Prod.mk.inj h
    exact ⟨s1, hval, postval_refl _⟩

theorem storeSet_storeSet (st : Store) (k : String) (v w : Session) :
    storeSet (storeSet st k v) k w = storeSet st k w := by
  induction st with
  | nil => simp [storeSet]
  | cons hd tl ih =>
    obtain ⟨k0, v0⟩ := hd
    by_cases h : k0 = k <;> simp [storeSet, h, ih]

/-- **C2**: (1) across any single request, every surviving session's
`connection_count` is non-decreasing except at reset points, where it
becomes exactly `1`; (2) whenever a structurally valid non-handshake
request on an ACTIVE clientId would carry the count past
`reconnectionInterval` (the validator's increment makes it exceed `ri`),
the count is reset to exactly `1` and the request is answered by the
synthetic success envelope with `advice.reconnect = "retry"`. -/
theorem connection_count_monotone_and_reset :
    (∀ (cfg : Config) (st : AppState) (body : Option JValue) (now : Int)
        (out : Outcome × AppState) (k : String) (c c' : Session),
      processRequest cfg st body now = out →
      storeLookup st.client_ids k = some c →
      storeLookup out.2.client_ids k = some c' →
      c.connection_count ≤ c'.connection_count ∨ c'.connection_count = 1) ∧
    (∀ (cfg : Config) (st : AppState) (fs : JFields) (rest : List JValue)
        (ch s : String) (info : Session) (ri now : Int),
      cfg.no_validation = false →
      validateRequest cfg (JValue.arr (JValue.obj fs :: rest)) = none →
      jget fs "channel" = some (JValue.str ch) →
      ch ≠ "/meta/handshake" →
      jget fs "clientId" = some (JValue.str s) →
      s ≠ "" →
      storeLookup st.client_ids s = some info →
      cfg.reconnection_interval = some ri →
      ri < info.connection_count + 1 →
      processRequest cfg st (some (JValue.arr (JValue.obj fs :: rest))) now =
        (Outcome.ok (retryResponse (JValue.obj fs) (some (JValue.str ch))
          (some (JValue.str s))),
         ⟨storeSet st.client_ids s ⟨1, info.creation_time⟩,
          st.uuid_counter⟩)) := by
  constructor
  · intro cfg st body now out k c c' hpr hc hc'
    obtain ⟨smid, hval, hpost⟩ := processPayload_evolution
      (show processPayload cfg st (body.getD (JValue.arr [])) now =
        (out.1, out.2) from hpr)
    rcases hpost k c' hc' with h1 | h1
    · exact Or.inr h1
    · rcases hval k c' h1 with h2 | ⟨c0, hc0, hcc, _⟩
      · rw [hc] at h2
        obtain rfl := Option.some_injective _ h2
        exact Or.inl le_rfl
      · rw [hc] at hc0
        obtain rfl := Option.some_injective _ hc0
        exact Or.inl (by omega)
  · intro cfg st fs rest ch s info ri now hnv hvr hch hns hcid hse hlook hri hgt
    have hs1 : validateClientId st.client_ids
        (JValue.arr (JValue.obj fs :: rest)) =
        Except.ok (none, storeSet st.client_ids s
          ⟨info.connection_count + 1, info.creation_time⟩) := by
      simp [validateClientId, pyIndex0, pyGet, hcid, hch, channelIs, hns,
        truthy, hse, pyInDict, hlook]
    have hfr : forceReconnect cfg
        (storeSet st.client_ids s ⟨info.connection_count + 1, info.creation_time⟩)
        (JValue.arr (JValue.obj fs :: rest)) now =
        Except.ok (some (retryResponse (JValue.obj fs) (some (JValue.str ch))
          (some (JValue.str s))),
          storeSet st.client_ids s ⟨1, info.creation_time⟩) := by
      simp [forceReconnect, pyIndex0, pyGet, hcid, hch, storeLookup_set_self,
        pyInDict, reconnectCond, hri, hgt, storeSet_storeSet]
    simp [processRequest, processPayload, runValidators, hnv, hvr, hs1,
      pyIndex0, pyGet, hch, channelIs, hns, runAdapters, hfr]

/-- Witness for C2, the spec's scenario: `reconnectionInterval = 1`;
handshake, then two connects on the returned clientId — the second
connect's response is the `advice.reconnect = "retry"` envelope and the
count is reset to exactly `1`. -/
theorem connection_count_monotone_and_reset_witness :
    processRequest ⟨false, 0, 45000, some 1, none, none, none⟩
        (processRequest ⟨false, 0, 45000, some 1, none, none, none⟩
          (processRequest ⟨false, 0, 45000, some 1, none, none, none⟩
            freshApp
            (some (JValue.arr [JValue.obj
              [("id", JValue.str "1"),
               ("channel", JValue.str "/meta/handshake")]])) 0).2
          (some (JValue.arr [JValue.obj
            [("id", JValue.str "2"),
             ("channel", JValue.str "/meta/connect"),
             ("clientId", JValue.str "u"),
             ("connectionType", JValue.str "long-polling")]])) 0).2
        (some (JValue.arr [JValue.obj
          [("id", JValue.str "2"),
           ("channel", JValue.str "/meta/connect"),
           ("clientId", JValue.str "u"),
           ("connectionType", JValue.str "long-polling")]])) 0 =
      (Outcome.ok (retryResponse
        (JValue.obj [("id", JValue.str "2"),
          ("channel", JValue.str "/meta/connect"),
          ("clientId", JValue.str "u"),
          ("connectionType", JValue.str "long-polling")])
        (some (JValue.str "/meta/connect")) (some (JValue.str "u"))),
       ⟨[("u", ⟨1, 0⟩)], 1⟩) := by
  have hst : (processRequest ⟨false, 0, 45000, some 1, none, none, none⟩
      (processRequest ⟨false, 0, 45000, some 1, none, none, none⟩
        freshApp
        (some (JValue.arr [JValue.obj
          [("id", JValue.str "1"),
           ("channel", JValue.str "/meta/handshake")]])) 0).2
      (some (JValue.arr [JValue.obj
        [("id", JValue.str "2"),
         ("channel", JValue.str "/meta/connect"),
         ("clientId", JValue.str "u"),
         ("connectionType", JValue.str "long-polling")]])) 0).2 =
      (⟨[("u", ⟨1, 0⟩)], 1⟩ : AppState) := rfl
  rw [hst]
  exact connection_count_monotone_and_reset.2
    ⟨false, 0, 45000, some 1, none, none, none⟩ ⟨[("u", ⟨1, 0⟩)], 1⟩
    [("id", JValue.str "2"), ("channel", JValue.str "/meta/connect"),
     ("clientId", JValue.str "u"), ("connectionType", JValue.str "long-polling")]
    [] "/meta/connect" "u" ⟨1, 0⟩ 1 0
    rfl rfl rfl (by decide) rfl (by decide) rfl rfl (by decide)

/-! ## C1: handshake issues fresh, globally unique clientIds -/

/-- Every key of the store was issued by the uuid generator at a counter
value below the current one.  Holds for `freshApp` and is preserved by
every handshake. -/
def StoreFresh (st : AppState) : Prop :=
  ∀ p ∈ st.client_ids, ∃ i, i < st.uuid_counter ∧ p.1 = genUuid i

/-- `N` consecutive handshakes, the `n`-th carrying payload `P n`. -/
def handshakeSeq (P : Nat → JValue) (now : Int) (st : AppState) :
    Nat → AppState
  | 0 => st
  | n + 1 => (handshake (handshakeSeq P now st n) (P n) now).2

/-- The `clientId` field of a handler result's single-message body. -/
def responseClientId (o : Except String Response × AppState) : Option String :=
  match o.1 with
  | Except.ok r =>
    match r.body with
    | JValue.arr [JValue.obj fields] =>
      match jget fields "clientId" with
      | some (JValue.str s) => some s
      | _ => none
    | _ => none
  | _ => none

theorem handshake_step (st : AppState) (fs : JFields) (rest : List JValue)
    (now : Int) :
    handshake st (JValue.arr (JValue.obj fs :: rest)) now =
      (Except.ok (handshakeResponse (JValue.obj fs) (genUuid st.uuid_counter)),
       ⟨storeSet st.client_ids (genUuid st.uuid_counter) ⟨1, now⟩,
        st.uuid_counter + 1⟩) := by
  simp [handshake, pyIndex0]

theorem mem_storeSet {st : Store} {k : String} {v : Session}
    {p : String × Session} (h : p ∈ storeSet st k v) : p ∈ st ∨ p.1 = k := by
  induction st with
  | nil =>
    simp [storeSet] at h
    simp [h]
  | cons hd tl ih =>
    obtain ⟨k0, v0⟩ := hd
    by_cases h0 : k0 = k
    · subst h0
      simp only [storeSet, if_pos rfl] at h
      rcases List.mem_cons.mp h with rfl | h
      · exact Or.inr rfl
      · exact Or.inl (List.mem_cons_of_mem _ h)
    · simp only [storeSet, if_neg h0] at h
      rcases List.mem_cons.mp h with rfl | h
      · exact Or.inl (List.mem_cons_self _ _)
      · rcases ih h with h' | h'
        · exact Or.inl (List.mem_cons_of_mem _ h')
        · exact Or.inr h'

theorem storeLookup_mem {st : Store} {k : String} {v : Session}
    (h : storeLookup st k = some v) : (k, v) ∈ st := by
  induction st with
  | nil => cases h
  | cons hd tl ih =>
    obtain ⟨k0, v0⟩ := hd
    by_cases h0 : k0 = k
    · subst h0
      rw [storeLookup, if_pos rfl] at h
      obtain rfl := Option.some_injective _ h
      exact List.mem_cons_self _ _
    · rw [storeLookup, if_neg h0] at h
      exact List.mem_cons_of_mem _ (ih h)

theorem storeFresh_not_mem {st : AppState} (h : StoreFresh st) :
    storeLookup st.client_ids (genUuid st.uuid_counter) = none := by
  rcases hl : storeLookup st.client_ids (genUuid st.uuid_counter) with _ | v
  · rfl
  · obtain ⟨i, hi, heq⟩ := h _ (storeLookup_mem hl)
    have := genUuid_inj heq.symm
    omega

theorem storeFresh_handshake {st : AppState} {fs : JFields}
    {rest : List JValue} {now : Int} (h : StoreFresh st) :
    StoreFresh (handshake st (JValue.arr (JValue.obj fs :: rest)) now).2 := by
  rw [handshake_step]
  dsimp only
  intro p hp
  rcases mem_storeSet hp with hm | hk
  · obtain ⟨i, hi, he⟩ := h p hm
    exact ⟨i, Nat.lt_succ_of_lt hi, he⟩
  · exact ⟨st.uuid_counter, Nat.lt_succ_self _, hk⟩

theorem handshakeSeq_counter (P : Nat → JValue) (now : Int) (st : AppState)
    (hP : ∀ n, ∃ fs rest, P n = JValue.arr (JValue.obj fs :: rest))
    (hfresh : StoreFresh st) :
    ∀ n, (handshakeSeq P now st n).uuid_counter = st.uuid_counter + n ∧
      StoreFresh (handshakeSeq P now st n) := by
  intro n
  induction n with
  | zero => exact ⟨rfl, hfresh⟩
  | succ n ih =>
    obtain ⟨fs, rest, hp⟩ := hP n
    constructor
    · show (handshake (handshakeSeq P now st n) (P n) now).2.uuid_counter = _
      rw [hp, handshake_step]
      simp [ih.1]
      omega
    · show StoreFresh (handshake (handshakeSeq P now st n) (P n) now).2
      rw [hp]
      exact storeFresh_handshake ih.2

/-- **C1**: the handshake handler ignores everything in the message except
its `id` echo — in particular any supplied `clientId` — and stores the new
session under the freshly generated identifier; across `N` consecutive
handshakes from any state whose keys were generator-issued, the `n`-th
response carries clientId `genUuid (counter + n)`, all issued clientIds
are pairwise distinct, and each one is absent from the store before its
handshake and present (a newly added key) right after it. -/
theorem handshake_fresh_unique_clientIds (P : Nat → JValue) (now : Int)
    (st : AppState)
    (hP : ∀ n, ∃ fs rest, P n = JValue.arr (JValue.obj fs :: rest))
    (hfresh : StoreFresh st) :
    (∀ (st₁ : AppState) (fs₁ fs₂ : JFields) (r₁ r₂ : List JValue),
      jget fs₁ "id" = jget fs₂ "id" →
      handshake st₁ (JValue.arr (JValue.obj fs₁ :: r₁)) now =
        handshake st₁ (JValue.arr (JValue.obj fs₂ :: r₂)) now) ∧
    (∀ n, responseClientId (handshake (handshakeSeq P now st n) (P n) now) =
      some (genUuid (st.uuid_counter + n))) ∧
    (∀ i j, i ≠ j →
      genUuid (st.uuid_counter + i) ≠ genUuid (st.uuid_counter + j)) ∧
    (∀ n, storeLookup (handshakeSeq P now st n).client_ids
        (genUuid (st.uuid_counter + n)) = none ∧
      storeLookup (handshakeSeq P now st (n + 1)).client_ids
        (genUuid (st.uuid_counter + n)) = some ⟨1, now⟩) := by
  have hcf := handshakeSeq_counter P now st hP hfresh
  refine ⟨?_, ?_, ?_, ?_⟩
  · intro st₁ fs₁ fs₂ r₁ r₂ hid
    simp [handshake_step, handshakeResponse, objGet, hid]
  · intro n
    obtain ⟨fs, rest, hp⟩ := hP n
    rw [hp, handshake_step]
    simp only [(hcf n).1]
    rfl
  · intro i j hij h
    have := genUuid_inj h
    omega
  · intro n
    obtain ⟨fs, rest, hp⟩ := hP n
    constructor
    · have h0 := storeFresh_not_mem (hcf n).2
      rwa [(hcf n).1] at h0
    · show storeLookup
        (handshake (handshakeSeq P now st n) (P n) now).2.client_ids _ = _
      rw [hp, handshake_step, ← (hcf n).1]
      exact storeLookup_set_self _ _ _

/-- Witness for C1: three consecutive handshakes from the fresh
application state issue `genUuid 0`, `genUuid 1`, `genUuid 2`; each is new
to the store at its handshake, and they are pairwise distinct. -/
theorem handshake_fresh_unique_clientIds_witness :
    (handshake freshApp
        (JValue.arr [JValue.obj [("id", JValue.str "1"),
          ("channel", JValue.str "/meta/handshake")]]) 0 =
      handshake freshApp
        (JValue.arr [JValue.obj [("id", JValue.str "1"),
          ("channel", JValue.str "/meta/handshake"),
          ("clientId", JValue.str "attacker-chosen")]]) 0) ∧
    (responseClientId (handshake
        (handshakeSeq (fun _ => JValue.arr [JValue.obj
          [("id", JValue.str "1"),
           ("channel", JValue.str "/meta/handshake")]]) 0 freshApp 2)
        (JValue.arr [JValue.obj [("id", JValue.str "1"),
          ("channel", JValue.str "/meta/handshake")]]) 0) =
      some (genUuid 2)) ∧
    genUuid 0 ≠ genUuid 1 ∧
    (storeLookup (handshakeSeq (fun _ => JValue.arr [JValue.obj
        [("id", JValue.str "1"),
         ("channel", JValue.str "/meta/handshake")]]) 0 freshApp 1).client_ids
      (genUuid 1) = none ∧
     storeLookup (handshakeSeq (fun _ => JValue.arr [JValue.obj
        [("id", JValue.str "1"),
         ("channel", JValue.str "/meta/handshake")]]) 0 freshApp 2).client_ids
      (genUuid 1) = some ⟨1, 0⟩) :=
  have hP : ∀ n : Nat, ∃ fs rest,
      (fun _ : Nat => JValue.arr [JValue.obj
        [("id", JValue.str "1"),
         ("channel", JValue.str "/meta/handshake")]]) n =
      JValue.arr (JValue.obj fs :: rest) :=
    fun _ => ⟨[("id", JValue.str "1"),
      ("channel", JValue.str "/meta/handshake")], [], rfl⟩
  have hfr : StoreFresh freshApp := fun p hp => absurd hp (List.not_mem_nil p)
  have h := handshake_fresh_unique_clientIds
    (fun _ => JValue.arr [JValue.obj
      [("id", JValue.str "1"),
       ("channel", JValue.str "/meta/handshake")]]) 0 freshApp hP hfr
  ⟨h.1 freshApp
      [("id", JValue.str "1"), ("channel", JValue.str "/meta/handshake")]
      [("id", JValue.str "1"), ("channel", JValue.str "/meta/handshake"),
       ("clientId", JValue.str "attacker-chosen")] [] [] rfl,
   h.2.1 2, h.2.2.1 0 1 (by decide), h.2.2.2 1⟩

/-! ## C3: count-based expiry -/

def connectMsgFields (cid : String) : JFields :=
  [("id", JValue.str "2"), ("channel", JValue.str "/meta/connect"),
   ("clientId", JValue.str cid), ("connectionType", JValue.str "long-polling")]

/-- A canonical well-formed connect batch for clientId `cid`. -/
def connectMsg (cid : String) : JValue :=
  JValue.arr [JValue.obj (connectMsgFields cid)]

/-- `j` consecutive connects on `cid`. -/
def connectSeq (cfg : Config) (cid : String) (now : Int) (st : AppState) :
    Nat → AppState
  | 0 => st
  | j + 1 =>
    (processRequest cfg (connectSeq cfg cid now st j)
      (some (connectMsg cid)) now).2

theorem connectMsg_validates (cfg : Config) (cid : String) :
    validateRequest cfg (connectMsg cid) = none := by
  by_cases hnv : cfg.no_validation
  · simp [validateRequest, hnv]
  · simp [validateRequest, hnv, connectMsg, connectMsgFields,
      validateMessages, jget, startsWithSlash, isStrOpt]

/-- One connect against a single-session store under
`expireAfterCount = k` (reconnect thresholds disabled): the validator
first raises the count to `c + 1`, then the expiry adapter removes the
session exactly when `c + 1 ≥ k`; either way the connect succeeds. -/
theorem connect_step_expire (ci ct k : Int) (cid : String) (hcid : cid ≠ "")
    (c t0 now : Int) (n : Nat) :
    processRequest ⟨false, ci, ct, none, none, some k, none⟩
        ⟨[(cid, ⟨c, t0⟩)], n⟩ (some (connectMsg cid)) now =
      (Outcome.ok (connectResponse ⟨false, ci, ct, none, none, some k, none⟩
        (JValue.obj (connectMsgFields cid)) (some (JValue.str cid)) none),
       if k ≤ c + 1 then ⟨[], n⟩ else ⟨[(cid, ⟨c + 1, t0⟩)], n⟩) := by
  have hvr := connectMsg_validates ⟨false, ci, ct, none, none, some k, none⟩ cid
  have hvc : validateClientId [(cid, ⟨c, t0⟩)] (connectMsg cid) =
      Except.ok (none, [(cid, ⟨c + 1, t0⟩)]) := by
    simp [validateClientId, connectMsg, connectMsgFields, pyIndex0, pyGet,
      jget, channelIs, truthy, hcid, pyInDict, storeLookup, storeSet]
  have hfr : forceReconnect ⟨false, ci, ct, none, none, some k, none⟩
      [(cid, ⟨c + 1, t0⟩)] (connectMsg cid) now =
      Except.ok (none, [(cid, ⟨c + 1, t0⟩)]) := by
    simp [forceReconnect, connectMsg, connectMsgFields, pyIndex0, pyGet,
      jget, pyInDict, storeLookup, reconnectCond]
  have hfr0 : forceReconnect ⟨false, ci, ct, none, none, some k, none⟩
      ([] : Store) (connectMsg cid) now = Except.ok (none, []) := by
    simp [forceReconnect, connectMsg, connectMsgFields, pyIndex0, pyGet,
      jget, pyInDict, storeLookup]
  have hex0 : expireClientId ⟨false, ci, ct, none, none, some k, none⟩
      ([] : Store) (connectMsg cid) now = Except.ok (none, []) := by
    simp [expireClientId, connectMsg, connectMsgFields, pyIndex0, pyGet,
      jget, pyInDict, storeLookup]
  by_cases hke : k ≤ c + 1
  · have hex : expireClientId ⟨false, ci, ct, none, none, some k, none⟩
        [(cid, ⟨c + 1, t0⟩)] (connectMsg cid) now =
        Except.ok (none, []) := by
      simp [expireClientId, connectMsg, connectMsgFields, pyIndex0, pyGet,
        jget, pyInDict, storeLookup, expireCond, hke, storeErase]
    have hpi : pyIndex0 (connectMsg cid) =
        Except.ok (JValue.obj (connectMsgFields cid)) := rfl
    have hpg : pyGet (JValue.obj (connectMsgFields cid)) "channel" =
        Except.ok (some (JValue.str "/meta/connect")) := rfl
    have hpc : pyGet (JValue.obj (connectMsgFields cid)) "clientId" =
        Except.ok (some (JValue.str cid)) := rfl
    have hcis : channelIs (some (JValue.str "/meta/connect"))
        "/meta/handshake" = false := rfl
    have hcc : channelIs (some (JValue.str "/meta/connect"))
        "/meta/connect" = true := rfl
    have hadv : adviceExtra (JValue.obj (connectMsgFields cid)) =
        Except.ok none := rfl
    simp [processRequest, processPayload, runValidators, hvr, hvc, hpi,
      hpg, hpc, hcis, hcc, hadv, runAdapters, hfr, hfr0, hex, hex0,
      dispatchChannel, connect, hke]
  · have hex : expireClientId ⟨false, ci, ct, none, none, some k, none⟩
        [(cid, ⟨c + 1, t0⟩)] (connectMsg cid) now =
        Except.ok (none, [(cid, ⟨c + 1, t0⟩)]) := by
      simp [expireClientId, connectMsg, connectMsgFields, pyIndex0, pyGet,
        jget, pyInDict, storeLookup, expireCond, hke]
    have hpi : pyIndex0 (connectMsg cid) =
        Except.ok (JValue.obj (connectMsgFields cid)) := rfl
    have hpg : pyGet (JValue.obj (connectMsgFields cid)) "channel" =
        Except.ok (some (JValue.str "/meta/connect")) := rfl
    have hpc : pyGet (JValue.obj (connectMsgFields cid)) "clientId" =
        Except.ok (some (JValue.str cid)) := rfl
    have hcis : channelIs (some (JValue.str "/meta/connect"))
        "/meta/handshake" = false := rfl
    have hcc : channelIs (some (JValue.str "/meta/connect"))
        "/meta/connect" = true := rfl
    have hadv : adviceExtra (JValue.obj (connectMsgFields cid)) =
        Except.ok none := rfl
    simp [processRequest, processPayload, runValidators, hvr, hvc, hpi,
      hpg, hpc, hcis, hcc, hadv, runAdapters, hfr, hex,
      dispatchChannel, connect, hke]

theorem connectSeq_invariant (ci ct t0 now : Int) (k : Nat) (cid : String)
    (hcid : cid ≠ "") (n : Nat) :
    ∀ j, j + 1 ≤ max (k - 1) 1 →
      connectSeq ⟨false, ci, ct, none, none, some (k : Int), none⟩ cid now
          ⟨[(cid, ⟨1, t0⟩)], n⟩ j = ⟨[(cid, ⟨1 + (j : Int), t0⟩)], n⟩ := by
  intro j
  induction j with
  | zero => intro _; simp [connectSeq]
  | succ j ih =>
    intro hj
    rw [connectSeq, ih (by omega),
      connect_step_expire ci ct (k : Int) cid hcid (1 + (j : Int)) t0 now n]
    have hnot : ¬ ((k : Int) ≤ 1 + (j : Int) + 1) := by
      rcases Nat.le_total k 1 with hk1 | hk1
      · have : max (k - 1) 1 = 1 := by omega
        omega
      · have : max (k - 1) 1 = k - 1 := by omega
        omega
    rw [if_neg hnot]
    have : (1 : Int) + (j : Int) + 1 = 1 + ((j + 1 : Nat) : Int) := by
      push_cast
      ring
    rw [this]

theorem connect_on_empty_store (ci ct now : Int) (ea : Option Int)
    (cid : String) (n : Nat) :
    processRequest ⟨false, ci, ct, none, none, ea, none⟩ ⟨[], n⟩
        (some (connectMsg cid)) now =
      (Outcome.ok (unknownClientIdResponse (some (JValue.str "2"))
        (some (JValue.str "/meta/connect")) (some (JValue.str cid))),
       ⟨[], n⟩) := by
  have hvr := connectMsg_validates ⟨false, ci, ct, none, none, ea, none⟩ cid
  have hvc : validateClientId ([] : Store) (connectMsg cid) =
      Except.ok (some (unknownClientIdResponse (some (JValue.str "2"))
        (some (JValue.str "/meta/connect")) (some (JValue.str cid))), []) := by
    by_cases hcid : cid = ""
    · subst hcid
      simp [validateClientId, connectMsg, connectMsgFields, pyIndex0,
        pyGet, jget, channelIs, truthy, objGet]
    · simp [validateClientId, connectMsg, connectMsgFields, pyIndex0,
        pyGet, jget, channelIs, truthy, hcid, pyInDict, storeLookup, objGet]
  simp [processRequest, processPayload, runValidators, hvr, hvc]

/-- Counterexample to C3 as stated, at `expireAfterCount = k = 1`: the
k-th (first) connect returns a success envelope but the session is
already gone from the store when the request completes — the validator's
increment (to `2`) reaches the expiry threshold during that very request
— so the k-th successful connect does **not** leave the session ACTIVE. -/
theorem expire_kth_connect_cex :
    processRequest ⟨false, 0, 45000, none, none, some 1, none⟩
        (processRequest ⟨false, 0, 45000, none, none, some 1, none⟩ freshApp
          (some (JValue.arr [JValue.obj
            [("id", JValue.str "1"),
             ("channel", JValue.str "/meta/handshake")]])) 0).2
        (some (connectMsg "u")) 0 =
      (Outcome.ok (connectResponse ⟨false, 0, 45000, none, none, some 1, none⟩
        (JValue.obj (connectMsgFields "u")) (some (JValue.str "u")) none),
       ⟨[], 1⟩) := rfl

/-- **C3 (amended)**: with `expireAfterCount = k ≥ 1` (and the reconnect
thresholds disabled), starting from a freshly handshaken session
(count `1`): writing `m = max (k-1) 1`, the first `m-1` connects leave the
session ACTIVE at count `1+j`; the `m`-th connect still returns the
normal success envelope but removes the session from the store (the
clientId validator increments the count to `1+m ≥ k` before the expiry
adapter compares it); and every later connect on that clientId yields the
`unknown_client_id` error.  The claim's indices are off: expiry happens
during connect `max (k-1) 1`, not after the k-th. -/
theorem expire_after_count_amended (ci ct t0 now : Int) (k : Nat)
    (hk : 1 ≤ k) (cid : String) (hcid : cid ≠ "") (n : Nat) :
    (∀ j, j + 1 ≤ max (k - 1) 1 →
      connectSeq ⟨false, ci, ct, none, none, some (k : Int), none⟩ cid now
          ⟨[(cid, ⟨1, t0⟩)], n⟩ j = ⟨[(cid, ⟨1 + (j : Int), t0⟩)], n⟩) ∧
    (processRequest ⟨false, ci, ct, none, none, some (k : Int), none⟩
        (connectSeq ⟨false, ci, ct, none, none, some (k : Int), none⟩ cid now
          ⟨[(cid, ⟨1, t0⟩)], n⟩ (max (k - 1) 1 - 1))
        (some (connectMsg cid)) now =
      (Outcome.ok (connectResponse
          ⟨false, ci, ct, none, none, some (k : Int), none⟩
          (JValue.obj (connectMsgFields cid)) (some (JValue.str cid)) none),
       ⟨[], n⟩)) ∧
    (processRequest ⟨false, ci, ct, none, none, some (k : Int), none⟩ ⟨[], n⟩
        (some (connectMsg cid)) now =
      (Outcome.ok (unknownClientIdResponse (some (JValue.str "2"))
        (some (JValue.str "/meta/connect")) (some (JValue.str cid))),
       ⟨[], n⟩)) := by
  refine ⟨connectSeq_invariant ci ct t0 now k cid hcid n, ?_,
    connect_on_empty_store ci ct now (some (k : Int)) cid n⟩
  rw [connectSeq_invariant ci ct t0 now k cid hcid n (max (k - 1) 1 - 1)
    (by rcases Nat.lt_or_ge k 2 with h1 | h1
        · have hmx : max (k - 1) 1 = 1 := by omega
          omega
        · have hmx : max (k - 1) 1 = k - 1 := by omega
          omega),
    connect_step_expire ci ct (k : Int) cid hcid
      (1 + ((max (k - 1) 1 - 1 : Nat) : Int)) t0 now n]
  rw [if_pos ?hc]
  case hc =>
    rcases Nat.lt_or_ge k 2 with hk1 | hk1
    · have : max (k - 1) 1 = 1 := by omega
      rw [this]
      omega
    · have : max (k - 1) 1 = k - 1 := by omega
      rw [this]
      omega

/-- Witness for C3 (amended) at `k = 3`: the first connect leaves the
session at count 2; the second connect (`max (k-1) 1 = 2`) succeeds but
empties the store; the next connect gets `unknown_client_id`. -/
theorem expire_after_count_amended_witness :
    (connectSeq ⟨false, 0, 45000, none, none, some 3, none⟩ "u" 0
        ⟨[("u", ⟨1, 0⟩)], 1⟩ 1 = ⟨[("u", ⟨2, 0⟩)], 1⟩) ∧
    (processRequest ⟨false, 0, 45000, none, none, some 3, none⟩
        (connectSeq ⟨false, 0, 45000, none, none, some 3, none⟩ "u" 0
          ⟨[("u", ⟨1, 0⟩)], 1⟩ 1)
        (some (connectMsg "u")) 0 =
      (Outcome.ok (connectResponse ⟨false, 0, 45000, none, none, some 3, none⟩
        (JValue.obj (connectMsgFields "u")) (some (JValue.str "u")) none),
       ⟨[], 1⟩)) ∧
    (processRequest ⟨false, 0, 45000, none, none, some 3, none⟩ ⟨[], 1⟩
        (some (connectMsg "u")) 0 =
      (Outcome.ok (unknownClientIdResponse (some (JValue.str "2"))
        (some (JValue.str "/meta/connect")) (some (JValue.str "u"))),
       ⟨[], 1⟩)) := by
  have h := expire_after_count_amended 0 45000 0 0 3 (by decide) "u"
    (by decide) 1
  exact ⟨h.1 1 (by decide), h.2.1, h.2.2⟩
